import Mathlib

/-!
OneFuse API client (`onefuse/api_client.go`)

A shallow embedding of the REST client of the Terraform provider: URL
construction, header attachment, the HTTP exchange, error classification,
JSON decoding into the typed records, the default-workspace resolver and the
public operations.

The Go standard library is not part of the repository.  What the client
needs from it is taken as a parameter (`Env`): whether `http.NewRequest`
accepts a URL, what `client.Do` answers, how `encoding/json` reads text into
a JSON value and marshals a request body.  The reflection-driven part of
`json.Unmarshal`, which is determined by the struct declarations and their
tags in the source, is modelled explicitly.

An operation is a function from the environment, the configuration and its
arguments to a `Run`: the list of `client.Do` calls it makes, in order, and
its `Outcome`, which is either the returned results or a panic.  Logging has
no effect on either and is left out.
-/

set_option autoImplicit false

namespace OneFuse

/-! ## Constants -/

def ApiVersion : String := "/api/v3/"
def ApiNamespace : String := "onefuse"
def NamingResourceType : String := "customNames"
def WorkspaceResourceType : String := "workspaces"
def MicrosoftAdPolicyResourceType : String := "microsoftActiveDirectoryPolicies"
def ModuleEndpointResourceType : String := "endpoints"

/-! ## Data model -/

/-- The fields of `Config` that the client reads (the struct itself is declared
outside `api_client.go`). -/
structure Config where
  scheme : String
  address : String
  port : String
  user : String
  password : String
  verifySSL : Bool
  deriving DecidableEq, Repr

structure Workspace where
  Name : String
  ID : String
  deriving DecidableEq, Repr

structure CustomName where
  Id : Int
  Version : Int
  Name : String
  DnsSuffix : String
  deriving DecidableEq, Repr

/-- A Go slice `[]T` as a decoder sees it: the `len` elements (`elems`) and the
elements of the backing array past `len` that an earlier decoding has left
there (`spare`); the rest of the capacity holds zero values.  The nil slice has
neither. -/
structure Slice (T : Type) where
  elems : List T
  spare : List T
  deriving DecidableEq, Repr

/-- The anonymous struct `Embedded` of `WorkspacesListResponse`. -/
structure WorkspacesEmbedded where
  Workspaces : Slice Workspace
  deriving DecidableEq, Repr

structure WorkspacesListResponse where
  Embedded : WorkspacesEmbedded
  deriving DecidableEq, Repr

/-- The anonymous struct `Links` of `MicrosoftEndpoint`. -/
structure EndpointLinks where
  Workspace : Workspace
  deriving DecidableEq, Repr

structure MicrosoftEndpoint where
  Links : EndpointLinks
  ID : Int
  Name : String
  Description : String
  Host : String
  Port : Int
  SSL : Bool
  MicrosoftVersion : Int
  deriving DecidableEq, Repr

/-- The anonymous struct `Links.MicrosoftEndpoint` of `MicrosoftAdPolicy`. -/
structure EndpointRef where
  Name : String
  URL : String
  deriving DecidableEq, Repr

/-- The anonymous struct `Links` of `MicrosoftAdPolicy`. -/
structure PolicyLinks where
  Workspace : Workspace
  MicrosoftEndpoint : EndpointRef
  deriving DecidableEq, Repr

structure MicrosoftAdPolicy where
  Links : PolicyLinks
  Name : String
  ID : Int
  Description : String
  MicrosoftEndpoint : String
  ComputerNameLetterCase : String
  OU : String
  deriving DecidableEq, Repr

/-! Zero values of the record types (Go's `T{}`). -/

def Workspace.zero : Workspace := ⟨"", ""⟩
def CustomName.zero : CustomName := ⟨0, 0, "", ""⟩
def WorkspacesListResponse.zero : WorkspacesListResponse := ⟨⟨⟨[], []⟩⟩⟩
def MicrosoftEndpoint.zero : MicrosoftEndpoint := ⟨⟨Workspace.zero⟩, 0, "", "", "", 0, false, 0⟩
def MicrosoftAdPolicy.zero : MicrosoftAdPolicy :=
  ⟨⟨Workspace.zero, ⟨"", ""⟩⟩, "", 0, "", "", "", ""⟩

/-! ## Errors, requests, responses -/

/-- Go `error` values met by the client. -/
inductive GoError where
  /-- The value of `errors.New(msg)`. -/
  | errorsNew (msg : String)
  /-- An error produced by `net/http` or `io` (request construction, transport,
  body stream). -/
  | external (msg : String)
  /-- A `*json.SyntaxError`: the text is not valid JSON. -/
  | syntaxError
  /-- A `*json.UnmarshalTypeError`: a JSON value of kind `value` met a Go
  target `target` that cannot hold it. -/
  | unmarshalTypeError (value : String) (target : String)
  deriving DecidableEq, Repr

/-- An `*http.Request` as the client builds it.  `Header` lists the
`Header.Add` calls in order, with the keys as written in the source. -/
structure Request where
  Method : String
  URL : String
  Body : Option String
  Header : List (String × String)
  BasicAuth : Option (String × String)
  deriving DecidableEq, Repr

/-- The `*http.Client` of `getHttpClient`: only its TLS setting varies. -/
structure HttpClient where
  InsecureSkipVerify : Bool
  deriving DecidableEq, Repr

/-- An `*http.Response` together with the state of its body stream: `Body` is
the text still to be delivered, `readErr` the error that ends the stream in
place of EOF (it is sticky, as in `net/http`), `closeErr` what `Body.Close()`
returns. -/
structure Response where
  StatusCode : Int
  Body : String
  readErr : Option GoError
  closeErr : Option GoError
  deriving DecidableEq, Repr

/-- What `client.Do(req)` returns: a response and a nil error (`ok`); a nil
response and an error (`fail`); or, when the redirect policy fails, the last
response with its body already closed, and an error (`failClosed`). -/
inductive DoResult where
  | ok (res : Response)
  | fail (err : GoError)
  | failClosed (err : GoError)
  deriving DecidableEq, Repr

/-- One `client.Do` call: the client used and the request handed to it. -/
structure Sent where
  client : HttpClient
  req : Request
  deriving DecidableEq, Repr

/-- How a call ends: it returns its results, or the goroutine panics. -/
inductive Outcome (α : Type) where
  | returned (value : α)
  | panicked (msg : String)
  deriving DecidableEq, Repr

/-- The observable behaviour of one operation: the `client.Do` calls it made,
in order, and how it ended. -/
structure Run (α : Type) where
  sent : List Sent
  outcome : Outcome α
  deriving DecidableEq, Repr

/-- The message of the runtime panic raised by a nil pointer dereference. -/
def nilDereference : String :=
  "runtime error: invalid memory address or nil pointer dereference"

/-! ## URL construction -/

/-- Go's `strconv.Itoa`: the decimal text of an integer, with a leading minus
sign for a negative one. -/
def Itoa (i : Int) : String :=
  if i < 0 then "-" ++ Nat.repr i.natAbs else Nat.repr i.natAbs

def collectionURL (config : Config) (resourceType : String) : String :=
  let address := config.address
  let port := config.port
  config.scheme ++ "://" ++ address ++ ":" ++ port ++ ApiVersion ++ ApiNamespace ++ "/" ++
    resourceType ++ "/"

def itemURL (config : Config) (resourceType : String) (id : Int) : String :=
  let address := config.address
  let port := config.port
  let idString := Itoa id
  config.scheme ++ "://" ++ address ++ ":" ++ port ++ ApiVersion ++ ApiNamespace ++ "/" ++
    resourceType ++ "/" ++ idString ++ "/"

/-! ## JSON values and decoding into the records -/

/-- A JSON value as `encoding/json` sees it once the text is scanned.  A number
keeps the integer its literal denotes, or `none` when the literal has a
fraction or an exponent (such a literal never fits a Go `int`). -/
inductive JSON where
  | null
  | bool (b : Bool)
  | num (int : Option Int)
  | str (s : String)
  | arr (items : List JSON)
  | obj (members : List (String × JSON))

/-- The `Value` text of an `UnmarshalTypeError` for a JSON value. -/
def JSON.kind : JSON → String
  | .null => "null"
  | .bool _ => "bool"
  | .num _ => "number"
  | .str _ => "string"
  | .arr _ => "array"
  | .obj _ => "object"

/-- Case folding of one rune of an object key: the representative of its
simple-folding orbit among the ASCII letters.  Only the orbits of `k` (Kelvin
sign U+212A) and `s` (long s U+017F) have members outside ASCII. -/
def foldRune (c : Char) : Char :=
  if c = Char.ofNat 0x212A then 'k'
  else if c = Char.ofNat 0x17F then 's'
  else c.toLower

/-- Case folding of an object key: `encoding/json` matches a key against a
field name (or tag) exactly or case-insensitively, and no two fields of one
struct of this client fold to the same name. -/
def foldKey (key : String) : String := ⟨key.data.map foldRune⟩

/-- Only the first error of one `Unmarshal` call is kept (`saveError`). -/
def firstError (e1 e2 : Option GoError) : Option GoError :=
  match e1 with
  | some e => some e
  | none => e2

/-- Decoding a JSON value into a `string` field: a JSON string is stored, `null`
leaves the field as it is, anything else is a type error. -/
def decodeString (old : String) (v : JSON) : String × Option GoError :=
  match v with
  | .str s => (s, none)
  | .null => (old, none)
  | other => (old, some (.unmarshalTypeError other.kind "string"))

/-- Decoding into an `int` field (64-bit): an integer literal in range is
stored, `null` leaves the field, anything else is a type error. -/
def decodeInt (old : Int) (v : JSON) : Int × Option GoError :=
  match v with
  | .num (some i) =>
    if -(2 : Int) ^ 63 ≤ i ∧ i < (2 : Int) ^ 63 then (i, none)
    else (old, some (.unmarshalTypeError "number" "int"))
  | .null => (old, none)
  | other => (old, some (.unmarshalTypeError other.kind "int"))

/-- Decoding into a `bool` field. -/
def decodeBool (old : Bool) (v : JSON) : Bool × Option GoError :=
  match v with
  | .bool b => (b, none)
  | .null => (old, none)
  | other => (old, some (.unmarshalTypeError other.kind "bool"))

/-- The members of an object are handled in order; each goes to the field its
folded key names (`setField`), so a later member overrides an earlier one. -/
def decodeMembers {T : Type} (setField : T → String → JSON → T × Option GoError) :
    List (String × JSON) → T → T × Option GoError
  | [], t => (t, none)
  | (k, v) :: rest, t =>
    let r1 := setField t (foldKey k) v
    let r2 := decodeMembers setField rest r1.1
    (r2.1, firstError r1.2 r2.2)

/-- Decoding into a struct: an object fills the fields, `null` leaves the
struct, anything else is a type error. -/
def decodeStruct {T : Type} (typeName : String)
    (setField : T → String → JSON → T × Option GoError) (old : T) (v : JSON) :
    T × Option GoError :=
  match v with
  | .obj members => decodeMembers setField members old
  | .null => (old, none)
  | other => (old, some (.unmarshalTypeError other.kind typeName))

/-- The elements of an array decoded in order, the element at index `i` into the
value that the backing array holds at `i` (`backing`), or into the zero value
where the backing array ends. -/
def decodeElements {T : Type} (zero : T) (decodeElem : T → JSON → T × Option GoError) :
    List JSON → List T → List T × Option GoError
  | [], _ => ([], none)
  | v :: rest, backing =>
    let r1 := decodeElem (backing.head?.getD zero) v
    let r2 := decodeElements zero decodeElem rest backing.tail
    (r1.1 :: r2.1, firstError r1.2 r2.2)

/-- Decoding into a slice.  A non-empty array is decoded element by element
into the backing array of the slice, which grows by zero values, and the length
becomes the number of items; an empty array gives a new empty slice; `null`
sets the slice to nil; anything else is a type error. -/
def decodeSlice {T : Type} (typeName : String) (zero : T)
    (decodeElem : T → JSON → T × Option GoError) (old : Slice T) (v : JSON) :
    Slice T × Option GoError :=
  match v with
  | .arr [] => (⟨[], []⟩, none)
  | .arr items =>
    let r := decodeElements zero decodeElem items (old.elems ++ old.spare)
    (⟨r.1, (old.elems ++ old.spare).drop items.length⟩, r.2)
  | .null => (⟨[], []⟩, none)
  | other => (old, some (.unmarshalTypeError other.kind typeName))

/-- A field set together with the error of setting it. -/
def withField {T F : Type} (r : F × Option GoError) (put : F → T) : T × Option GoError :=
  (put r.1, r.2)

def Workspace.setField (w : Workspace) (key : String) (v : JSON) : Workspace × Option GoError :=
  if key = "name" then withField (decodeString w.Name v) (fun x => { w with Name := x })
  else if key = "id" then withField (decodeString w.ID v) (fun x => { w with ID := x })
  else (w, none)

def Workspace.decode (old : Workspace) (v : JSON) : Workspace × Option GoError :=
  decodeStruct "Workspace" Workspace.setField old v

/-- The fields of `CustomName` carry no tag: the keys are the field names. -/
def CustomName.setField (c : CustomName) (key : String) (v : JSON) :
    CustomName × Option GoError :=
  if key = "id" then withField (decodeInt c.Id v) (fun x => { c with Id := x })
  else if key = "version" then withField (decodeInt c.Version v) (fun x => { c with Version := x })
  else if key = "name" then withField (decodeString c.Name v) (fun x => { c with Name := x })
  else if key = "dnssuffix" then
    withField (decodeString c.DnsSuffix v) (fun x => { c with DnsSuffix := x })
  else (c, none)

def CustomName.decode (old : CustomName) (v : JSON) : CustomName × Option GoError :=
  decodeStruct "CustomName" CustomName.setField old v

def WorkspacesEmbedded.setField (e : WorkspacesEmbedded) (key : String) (v : JSON) :
    WorkspacesEmbedded × Option GoError :=
  if key = "workspaces" then
    withField (decodeSlice "[]Workspace" Workspace.zero Workspace.decode e.Workspaces v)
      (fun x => { e with Workspaces := x })
  else (e, none)

def WorkspacesListResponse.setField (d : WorkspacesListResponse) (key : String) (v : JSON) :
    WorkspacesListResponse × Option GoError :=
  if key = "_embedded" then
    withField (decodeStruct "struct" WorkspacesEmbedded.setField d.Embedded v)
      (fun x => { d with Embedded := x })
  else (d, none)

def WorkspacesListResponse.decode (old : WorkspacesListResponse) (v : JSON) :
    WorkspacesListResponse × Option GoError :=
  decodeStruct "WorkspacesListResponse" WorkspacesListResponse.setField old v

def EndpointLinks.setField (l : EndpointLinks) (key : String) (v : JSON) :
    EndpointLinks × Option GoError :=
  if key = "workspace" then
    withField (Workspace.decode l.Workspace v) (fun x => { l with Workspace := x })
  else (l, none)

/-- The tag of `Description` is `json:"string"` in the source. -/
def MicrosoftEndpoint.setField (e : MicrosoftEndpoint) (key : String) (v : JSON) :
    MicrosoftEndpoint × Option GoError :=
  if key = "_links" then
    withField (decodeStruct "struct" EndpointLinks.setField e.Links v)
      (fun x => { e with Links := x })
  else if key = "id" then withField (decodeInt e.ID v) (fun x => { e with ID := x })
  else if key = "name" then withField (decodeString e.Name v) (fun x => { e with Name := x })
  else if key = "string" then
    withField (decodeString e.Description v) (fun x => { e with Description := x })
  else if key = "host" then withField (decodeString e.Host v) (fun x => { e with Host := x })
  else if key = "port" then withField (decodeInt e.Port v) (fun x => { e with Port := x })
  else if key = "ssl" then withField (decodeBool e.SSL v) (fun x => { e with SSL := x })
  else if key = "microsoftversion" then
    withField (decodeInt e.MicrosoftVersion v) (fun x => { e with MicrosoftVersion := x })
  else (e, none)

def MicrosoftEndpoint.decode (old : MicrosoftEndpoint) (v : JSON) :
    MicrosoftEndpoint × Option GoError :=
  decodeStruct "MicrosoftEndpoint" MicrosoftEndpoint.setField old v

def EndpointRef.setField (r : EndpointRef) (key : String) (v : JSON) :
    EndpointRef × Option GoError :=
  if key = "name" then withField (decodeString r.Name v) (fun x => { r with Name := x })
  else if key = "url" then withField (decodeString r.URL v) (fun x => { r with URL := x })
  else (r, none)

def PolicyLinks.setField (l : PolicyLinks) (key : String) (v : JSON) :
    PolicyLinks × Option GoError :=
  if key = "workspace" then
    withField (Workspace.decode l.Workspace v) (fun x => { l with Workspace := x })
  else if key = "microsoftendpoint" then
    withField (decodeStruct "struct" EndpointRef.setField l.MicrosoftEndpoint v)
      (fun x => { l with MicrosoftEndpoint := x })
  else (l, none)

def MicrosoftAdPolicy.setField (p : MicrosoftAdPolicy) (key : String) (v : JSON) :
    MicrosoftAdPolicy × Option GoError :=
  if key = "_links" then
    withField (decodeStruct "struct" PolicyLinks.setField p.Links v)
      (fun x => { p with Links := x })
  else if key = "name" then withField (decodeString p.Name v) (fun x => { p with Name := x })
  else if key = "id" then withField (decodeInt p.ID v) (fun x => { p with ID := x })
  else if key = "description" then
    withField (decodeString p.Description v) (fun x => { p with Description := x })
  else if key = "microsoftendpoint" then
    withField (decodeString p.MicrosoftEndpoint v) (fun x => { p with MicrosoftEndpoint := x })
  else if key = "computernamelettercase" then
    withField (decodeString p.ComputerNameLetterCase v)
      (fun x => { p with ComputerNameLetterCase := x })
  else if key = "ou" then withField (decodeString p.OU v) (fun x => { p with OU := x })
  else (p, none)

def MicrosoftAdPolicy.decode (old : MicrosoftAdPolicy) (v : JSON) :
    MicrosoftAdPolicy × Option GoError :=
  decodeStruct "MicrosoftAdPolicy" MicrosoftAdPolicy.setField old v

/-- The call `json.Unmarshal(body, &target)` for a struct `target`, given the
scan of `body` (`none`: the text is not valid JSON, the target is untouched). -/
def Unmarshal {T : Type} (decode : T → JSON → T × Option GoError) (scanned : Option JSON)
    (target : T) : T × Option GoError :=
  match scanned with
  | none => (target, some .syntaxError)
  | some v => decode target v

/-- The call `json.Unmarshal(body, &result)` of `GenerateCustomName`, where
`result` is a `*CustomName`: invalid text leaves the pointer, `null` sets it to
nil, any other value allocates the record when the pointer is nil and decodes
into it. -/
def UnmarshalCustomNamePtr (scanned : Option JSON) (result : Option CustomName) :
    Option CustomName × Option GoError :=
  match scanned with
  | none => (result, some .syntaxError)
  | some .null => (none, none)
  | some v =>
    let r := CustomName.decode (result.getD CustomName.zero) v
    (some r.1, r.2)

/-! ## The environment: what the standard library and the network answer -/

/-- The body of the POST of `GenerateCustomName` before it is marshalled: the
Go map with the keys `namingPolicy`, `templateProperties` and `workspace`. -/
structure PostBody where
  namingPolicy : String
  templateProperties : List (String × JSON)
  workspace : String

/-- The parts of the Go standard library and of the network that the client
calls. -/
structure Env where
  /-- The error of `http.NewRequest(method, url, body)`, if any (the URL does
  not parse). -/
  NewRequest : String → String → Option GoError
  /-- The answer of `client.Do(req)`. -/
  Do : HttpClient → Request → DoResult
  /-- The scan of a JSON text by `encoding/json` (`none`: a syntax error). -/
  parseJSON : String → Option JSON
  /-- The text of `json.Marshal(postBody)` (`none`: an error). -/
  marshalPostBody : PostBody → Option String
  /-- The text of `json.Marshal(newPolicy)` (`none`: an error). -/
  marshalPolicy : MicrosoftAdPolicy → Option String

/-! ## Headers, client, body stream, error classification -/

def setStandardHeaders (req : Request) : Request :=
  { req with Header := req.Header ++
      [("Content-Type", "application/json"),
       ("Accept", "*/*"),
       ("Cache-Control", "no-cache"),
       ("accept-encoding", "gzip, deflate"),
       ("Connection", "keep-alive"),
       ("cache-control", "no-cache")] }

def setHeaders (req : Request) (config : Config) : Request :=
  let req := setStandardHeaders req
  let req := { req with Header := req.Header ++ [("Host", config.address ++ ":" ++ config.port)] }
  let req := { req with Header := req.Header ++ [("SOURCE", "Terraform")] }
  { req with BasicAuth := some (config.user, config.password) }

def getHttpClient (config : Config) : HttpClient :=
  { InsecureSkipVerify := !config.verifySSL }

/-- The request `http.NewRequest` returns when it reports no error. -/
def newRequest (method url : String) (body : Option String) : Request :=
  { Method := method, URL := url, Body := body, Header := [], BasicAuth := none }

/-- The error of `ioutil.ReadAll` on a body that is already closed. -/
def errReadOnClosedResBody : GoError := .external "http: read on closed response body"

/-- The call `ioutil.ReadAll(res.Body)`: the bytes read, the error, and the
response with its stream advanced. -/
def ReadAll (res : Response) : String × Option GoError × Response :=
  (res.Body, res.readErr, { res with Body := "" })

/-- The error of `checkForErrors(res)` and the response it leaves: with a
status of 500 or more the body is read to its end. -/
def checkForErrors (res : Response) : Option GoError × Response :=
  -- TODO: How to handle 40X errors?
  if res.StatusCode ≥ 500 then
    let r := ReadAll res
    (some (.errorsNew r.1), r.2.2)
  else (none, res)

/-! ## The operations -/

def findDefaultWorkspaceID (env : Env) (config : Config) : Run (String × Option GoError) :=
  let filter := "filter=name.exact:Default"
  let url := collectionURL config WorkspaceResourceType ++ "?" ++ filter
  match env.NewRequest "GET" url with
  | some clientErr => ⟨[], .returned ("", some clientErr)⟩
  | none =>
    let req := setHeaders (newRequest "GET" url none) config
    let client := getHttpClient config
    match env.Do client req with
    | .fail clientErr => ⟨[⟨client, req⟩], .returned ("", some clientErr)⟩
    | .failClosed clientErr => ⟨[⟨client, req⟩], .returned ("", some clientErr)⟩
    | .ok res =>
      let res := (checkForErrors res).2
      match ReadAll res with
      | (_, some clientErr, _) => ⟨[⟨client, req⟩], .returned ("", some clientErr)⟩
      | (body, none, _) =>
        let data := (Unmarshal WorkspacesListResponse.decode (env.parseJSON body)
          WorkspacesListResponse.zero).1
        let workspaces := data.Embedded.Workspaces
        match workspaces.elems with
        | [] => ⟨[⟨client, req⟩], .panicked "Unable to find default workspace."⟩
        | w :: _ => ⟨[⟨client, req⟩], .returned (w.ID, none)⟩

/-- The part of `GenerateCustomName` after the workspace is known. -/
def postCustomName (env : Env) (config : Config) (namingPolicyID workspaceID : String)
    (templateProperties : List (String × JSON)) : Run (Option CustomName × Option GoError) :=
  let url := collectionURL config NamingResourceType
  let postBody : PostBody :=
    { namingPolicy := ApiVersion ++ ApiNamespace ++ "/namingPolicies/" ++ namingPolicyID ++ "/",
      templateProperties := templateProperties,
      workspace := ApiVersion ++ ApiNamespace ++ "/workspaces/" ++ workspaceID ++ "/" }
  match env.marshalPostBody postBody with
  | none => ⟨[], .returned (none, some (.errorsNew "unable to marshal request body to JSON"))⟩
  | some requestBody =>
    match env.NewRequest "POST" url with
    | some err => ⟨[], .returned (none, some err)⟩
    | none =>
      let req := setHeaders (newRequest "POST" url (some requestBody)) config
      let client := getHttpClient config
      match env.Do client req with
      | .fail err => ⟨[⟨client, req⟩], .returned (none, some err)⟩
      | .failClosed err => ⟨[⟨client, req⟩], .returned (none, some err)⟩
      | .ok res =>
        let statusCode := res.StatusCode
        let res := (checkForErrors res).2
        match ReadAll res with
        | (_, some err, _) => ⟨[⟨client, req⟩], .returned (none, some err)⟩
        | (body, none, _) =>
          let result := (UnmarshalCustomNamePtr (env.parseJSON body) none).1
          match result with
          | none =>
            ⟨[⟨client, req⟩], .returned (none, some (.errorsNew
              ("invalid response " ++ Itoa statusCode ++
                " while generating a custom name: " ++ body)))⟩
          | some r => ⟨[⟨client, req⟩], .returned (some r, none)⟩

/-- The operation `GenerateCustomName`; `templateProperties` is `none` for a nil
map.  `dnsSuffix` is only logged. -/
def GenerateCustomName (env : Env) (config : Config) (dnsSuffix namingPolicyID workspaceID : String)
    (templateProperties : Option (List (String × JSON))) :
    Run (Option CustomName × Option GoError) :=
  let _logged := dnsSuffix
  let templateProperties := templateProperties.getD []
  if workspaceID = "" then
    let r := findDefaultWorkspaceID env config
    match r.outcome with
    | .panicked msg => ⟨r.sent, .panicked msg⟩
    | .returned (_, some err) => ⟨r.sent, .returned (none, some err)⟩
    | .returned (workspaceID, none) =>
      let p := postCustomName env config namingPolicyID workspaceID templateProperties
      ⟨r.sent ++ p.sent, p.outcome⟩
  else postCustomName env config namingPolicyID workspaceID templateProperties

def GetCustomName (env : Env) (config : Config) (id : Int) : Run (CustomName × Option GoError) :=
  let url := itemURL config NamingResourceType id
  match env.NewRequest "GET" url with
  | some err => ⟨[], .returned (CustomName.zero, some err)⟩
  | none =>
    let req := setHeaders (newRequest "GET" url none) config
    let client := getHttpClient config
    match env.Do client req with
    | .fail _ => ⟨[⟨client, req⟩], .panicked nilDereference⟩
    | .failClosed _ => ⟨[⟨client, req⟩], .returned (CustomName.zero, some errReadOnClosedResBody)⟩
    | .ok res =>
      match ReadAll res with
      | (_, some err, _) => ⟨[⟨client, req⟩], .returned (CustomName.zero, some err)⟩
      | (body, none, _) =>
        let result := (Unmarshal CustomName.decode (env.parseJSON body) CustomName.zero).1
        ⟨[⟨client, req⟩], .returned (result, none)⟩

def DeleteCustomName (env : Env) (config : Config) (id : Int) : Run (Option GoError) :=
  let url := itemURL config NamingResourceType id
  match env.NewRequest "DELETE" url with
  | some _ => ⟨[], .panicked nilDereference⟩
  | none =>
    let req := setHeaders (newRequest "DELETE" url none) config
    let client := getHttpClient config
    match env.Do client req with
    | .fail err => ⟨[⟨client, req⟩], .returned (some err)⟩
    | .failClosed err => ⟨[⟨client, req⟩], .returned (some err)⟩
    | .ok res => ⟨[⟨client, req⟩], .returned (checkForErrors res).1⟩

def CreateMicrosoftEndpoint (_env : Env) (_config : Config) (_newEndpoint : MicrosoftEndpoint) :
    Run (MicrosoftEndpoint × Option GoError) :=
  let endpoint := MicrosoftEndpoint.zero
  let err := GoError.errorsNew "Not implemented yet"
  ⟨[], .returned (endpoint, some err)⟩

def GetMicrosoftEndpoint (_env : Env) (_config : Config) (_id : Int) :
    Run (MicrosoftEndpoint × Option GoError) :=
  let endpoint := MicrosoftEndpoint.zero
  let err := GoError.errorsNew "Not implemented yet"
  ⟨[], .returned (endpoint, some err)⟩

def GetMicrosoftEndpointByName (env : Env) (config : Config) (name : String) :
    Run (MicrosoftEndpoint × Option GoError) :=
  let endpoint := MicrosoftEndpoint.zero
  let url := collectionURL config ModuleEndpointResourceType
  let url := url ++ ("?filter=name:" ++ name ++ ";type:microsoft")
  match env.NewRequest "GET" url with
  | some err => ⟨[], .returned (endpoint, some err)⟩
  | none =>
    let req := setHeaders (newRequest "GET" url none) config
    let client := getHttpClient config
    match env.Do client req with
    | .fail _ => ⟨[⟨client, req⟩], .panicked nilDereference⟩
    | .failClosed _ => ⟨[⟨client, req⟩], .returned (endpoint, some errReadOnClosedResBody)⟩
    | .ok res =>
      match ReadAll res with
      | (_, some err, _) => ⟨[⟨client, req⟩], .returned (endpoint, some err)⟩
      | (body, none, _) =>
        let endpoint := (Unmarshal MicrosoftEndpoint.decode (env.parseJSON body) endpoint).1
        ⟨[⟨client, req⟩], .returned (endpoint, none)⟩

def UpdateMicrosoftEndpoint (_env : Env) (_config : Config) (_id : Int)
    (_updatedEndpoint : MicrosoftEndpoint) : Run (MicrosoftEndpoint × Option GoError) :=
  let endpoint := MicrosoftEndpoint.zero
  let err := GoError.errorsNew "Not implemented yet"
  ⟨[], .returned (endpoint, some err)⟩

def DeleteMicrosoftEndpoint (_env : Env) (_config : Config) (_id : Int) : Run (Option GoError) :=
  ⟨[], .returned (some (GoError.errorsNew "Not implemented yet"))⟩

def CreateMicrosoftAdPolicy (env : Env) (config : Config) (newPolicy : MicrosoftAdPolicy) :
    Run (MicrosoftAdPolicy × Option GoError) :=
  let policy := MicrosoftAdPolicy.zero
  let url := collectionURL config MicrosoftAdPolicyResourceType
  match env.marshalPolicy newPolicy with
  | none => ⟨[], .returned (policy, some (.errorsNew "unable to marshal request body to JSON"))⟩
  | some requestBody =>
    match env.NewRequest "POST" url with
    | some _ => ⟨[], .panicked nilDereference⟩
    | none =>
      let req := setHeaders (newRequest "POST" url (some requestBody)) config
      let client := getHttpClient config
      match env.Do client req with
      | .fail err => ⟨[⟨client, req⟩], .returned (policy, some err)⟩
      | .failClosed err => ⟨[⟨client, req⟩], .returned (policy, some err)⟩
      | .ok res =>
        match checkForErrors res with
        | (some err, _) => ⟨[⟨client, req⟩], .returned (policy, some err)⟩
        | (none, res) =>
          match ReadAll res with
          | (_, some err, _) => ⟨[⟨client, req⟩], .returned (policy, some err)⟩
          | (body, none, res) =>
            match res.closeErr with
            | some err => ⟨[⟨client, req⟩], .returned (policy, some err)⟩
            | none =>
              match Unmarshal MicrosoftAdPolicy.decode (env.parseJSON body) policy with
              | (policy, some err) => ⟨[⟨client, req⟩], .returned (policy, some err)⟩
              | (policy, none) => ⟨[⟨client, req⟩], .returned (policy, none)⟩

def GetMicrosoftAdPolicy (env : Env) (config : Config) (id : Int) :
    Run (MicrosoftAdPolicy × Option GoError) :=
  let policy := MicrosoftAdPolicy.zero
  let url := itemURL config MicrosoftAdPolicyResourceType id
  match env.NewRequest "GET" url with
  | some err => ⟨[], .returned (policy, some err)⟩
  | none =>
    let req := setHeaders (newRequest "GET" url none) config
    let client := getHttpClient config
    match env.Do client req with
    | .fail _ => ⟨[⟨client, req⟩], .panicked nilDereference⟩
    | .failClosed _ => ⟨[⟨client, req⟩], .returned (policy, some errReadOnClosedResBody)⟩
    | .ok res =>
      match ReadAll res with
      | (_, some err, _) => ⟨[⟨client, req⟩], .returned (policy, some err)⟩
      | (body, none, _) =>
        let policy := (Unmarshal MicrosoftAdPolicy.decode (env.parseJSON body) policy).1
        ⟨[⟨client, req⟩], .returned (policy, none)⟩

def UpdateMicrosoftAdPolicy (_env : Env) (_config : Config) (_id : Int)
    (_updatedPolicy : MicrosoftAdPolicy) : Run (MicrosoftAdPolicy × Option GoError) :=
  let policy := MicrosoftAdPolicy.zero
  let err := GoError.errorsNew "Not implemented yet"
  ⟨[], .returned (policy, some err)⟩

def DeleteMicrosoftAdPolicy (env : Env) (config : Config) (id : Int) : Run (Option GoError) :=
  let url := itemURL config MicrosoftAdPolicyResourceType id
  match env.NewRequest "DELETE" url with
  | some _ => ⟨[], .panicked nilDereference⟩
  | none =>
    let req := setHeaders (newRequest "DELETE" url none) config
    let client := getHttpClient config
    match env.Do client req with
    | .fail err => ⟨[⟨client, req⟩], .returned (some err)⟩
    | .failClosed err => ⟨[⟨client, req⟩], .returned (some err)⟩
    | .ok res => ⟨[⟨client, req⟩], .returned (checkForErrors res).1⟩

/-! ## A reader of JSON text

`readJSON` scans the JSON grammar (objects, arrays, strings with the
single-character escapes, numbers, `true`, `false`, `null`; a `\u` escape is
not read).  It instantiates `Env.parseJSON` where a concrete environment is
needed; the theorems that quantify over `Env` do not depend on it. -/

namespace Reader

def dquote : Char := Char.ofNat 34
def backslash : Char := Char.ofNat 92
def lbrace : Char := Char.ofNat 123
def rbrace : Char := Char.ofNat 125
def lbracket : Char := Char.ofNat 91
def rbracket : Char := Char.ofNat 93

def isSpace (c : Char) : Bool :=
  c = ' ' || c = Char.ofNat 10 || c = Char.ofNat 9 || c = Char.ofNat 13

def skipSpace : List Char → List Char
  | [] => []
  | c :: cs => if isSpace c then skipSpace cs else c :: cs

/-- The character an escape `\c` stands for. -/
def unescape (c : Char) : Option Char :=
  if c = dquote then some dquote
  else if c = backslash then some backslash
  else if c = '/' then some '/'
  else if c = 'b' then some (Char.ofNat 8)
  else if c = 'f' then some (Char.ofNat 12)
  else if c = 'n' then some (Char.ofNat 10)
  else if c = 'r' then some (Char.ofNat 13)
  else if c = 't' then some (Char.ofNat 9)
  else none

/-- The rest of a string after its opening quote: the text up to the closing
quote and what follows it.  `escaped` tells that the last character was a
backslash; `acc` holds the text read so far, reversed. -/
def readString : List Char → Bool → List Char → Option (String × List Char)
  | [], _, _ => none
  | c :: cs, true, acc =>
    match unescape c with
    | some x => readString cs false (x :: acc)
    | none => none
  | c :: cs, false, acc =>
    if c = dquote then some (⟨acc.reverse⟩, cs)
    else if c = backslash then readString cs true acc
    else if c.toNat < 32 then none
    else readString cs false (c :: acc)

/-- The leading decimal digits of a text, and the rest. -/
def readDigits : List Char → List Char × List Char
  | [] => ([], [])
  | c :: cs =>
    if c.isDigit then ((readDigits cs).1.cons c, (readDigits cs).2) else ([], c :: cs)

def digitsValue (ds : List Char) : Nat :=
  ds.foldl (fun n d => 10 * n + (d.toNat - 48)) 0

/-- The optional fraction of a number: `none` when it is malformed, else whether
one was present and the rest of the text. -/
def readFraction : List Char → Option (Bool × List Char)
  | '.' :: cs =>
    match readDigits cs with
    | ([], _) => none
    | (_, rest) => some (true, rest)
  | cs => some (false, cs)

/-- The optional exponent of a number, like `readFraction`. -/
def readExponent (cs : List Char) : Option (Bool × List Char) :=
  match cs with
  | [] => some (false, [])
  | c :: rest =>
    if c = 'e' ∨ c = 'E' then
      let rest :=
        match rest with
        | s :: r => if s = '+' ∨ s = '-' then r else s :: r
        | [] => []
      match readDigits rest with
      | ([], _) => none
      | (_, rest) => some (true, rest)
    else some (false, c :: rest)

/-- A number literal. -/
def readNumber (cs : List Char) : Option (JSON × List Char) :=
  let neg := cs.head? = some '-'
  let cs := if neg then cs.tail else cs
  match readDigits cs with
  | ([], _) => none
  | (d :: ds, rest) =>
    if d = '0' ∧ ds ≠ [] then none
    else
      match readFraction rest with
      | none => none
      | some (frac, rest) =>
        match readExponent rest with
        | none => none
        | some (exp, rest) =>
          if frac ∨ exp then some (.num none, rest)
          else
            let n : Int := digitsValue (d :: ds)
            some (.num (some (if neg then -n else n)), rest)

/-- The literal `word` at the head of the text. -/
def readWord (word : List Char) (v : JSON) (cs : List Char) : Option (JSON × List Char) :=
  if cs.take word.length = word then some (v, cs.drop word.length) else none

mutual

/-- One JSON value at the head of the text (after white space). -/
def readValue : Nat → List Char → Option (JSON × List Char)
  | 0, _ => none
  | fuel + 1, cs =>
    match skipSpace cs with
    | [] => none
    | c :: rest =>
      if c = dquote then
        match readString rest false [] with
        | some (s, rest) => some (.str s, rest)
        | none => none
      else if c = lbracket then
        match skipSpace rest with
        | [] => none
        | d :: rest2 =>
          if d = rbracket then some (.arr [], rest2)
          else
            match readItems fuel (d :: rest2) with
            | some (items, rest) => some (.arr items, rest)
            | none => none
      else if c = lbrace then
        match skipSpace rest with
        | [] => none
        | d :: rest2 =>
          if d = rbrace then some (.obj [], rest2)
          else
            match readMembers fuel (d :: rest2) with
            | some (members, rest) => some (.obj members, rest)
            | none => none
      else if c = 'n' then readWord "null".data .null (c :: rest)
      else if c = 't' then readWord "true".data (.bool true) (c :: rest)
      else if c = 'f' then readWord "false".data (.bool false) (c :: rest)
      else readNumber (c :: rest)

/-- The items of a non-empty array up to its closing bracket. -/
def readItems : Nat → List Char → Option (List JSON × List Char)
  | 0, _ => none
  | fuel + 1, cs =>
    match readValue fuel cs with
    | none => none
    | some (v, rest) =>
      match skipSpace rest with
      | [] => none
      | c :: rest =>
        if c = rbracket then some ([v], rest)
        else if c = ',' then
          match readItems fuel rest with
          | some (items, rest) => some (v :: items, rest)
          | none => none
        else none

/-- The members of a non-empty object up to its closing brace. -/
def readMembers : Nat → List Char → Option (List (String × JSON) × List Char)
  | 0, _ => none
  | fuel + 1, cs =>
    match skipSpace cs with
    | [] => none
    | q :: rest =>
      if q = dquote then
        match readString rest false [] with
        | none => none
        | some (key, rest) =>
          match skipSpace rest with
          | [] => none
          | colon :: rest =>
            if colon = ':' then
              match readValue fuel rest with
              | none => none
              | some (v, rest) =>
                match skipSpace rest with
                | [] => none
                | c :: rest =>
                  if c = rbrace then some ([(key, v)], rest)
                  else if c = ',' then
                    match readMembers fuel rest with
                    | some (members, rest) => some ((key, v) :: members, rest)
                    | none => none
                  else none
            else none
      else none

end

end Reader

/-- The JSON value a text denotes, `none` when the text is not one JSON value. -/
def readJSON (text : String) : Option JSON :=
  match Reader.readValue (text.length + 1) text.data with
  | some (v, rest) => if Reader.skipSpace rest = [] then some v else none
  | none => none

/-! ## A writer of JSON text

`writeJSON` prints a JSON value compactly, members in the order given; it
stands for `json.Marshal` in the concrete environments below. -/

namespace Writer

def escapeChars : List Char → List Char
  | [] => []
  | c :: cs =>
    if c = Reader.dquote ∨ c = Reader.backslash then Reader.backslash :: c :: escapeChars cs
    else c :: escapeChars cs

def writeString (s : String) : String :=
  ⟨Reader.dquote :: escapeChars s.data ++ [Reader.dquote]⟩

def joinComma : List String → String
  | [] => ""
  | [x] => x
  | x :: rest => x ++ "," ++ joinComma rest

/-- The text of a value nested at most `depth` levels deep (`none` beyond). -/
def writeJSON : Nat → JSON → Option String
  | 0, _ => none
  | _ + 1, .null => some "null"
  | _ + 1, .bool b => some (if b then "true" else "false")
  | _ + 1, .num (some i) => some (Itoa i)
  | _ + 1, .num none => none
  | _ + 1, .str s => some (writeString s)
  | depth + 1, .arr items =>
    (items.mapM (writeJSON depth)).map (fun xs => "[" ++ joinComma xs ++ "]")
  | depth + 1, .obj members =>
    (members.mapM (fun m => (writeJSON depth m.2).map (fun x => writeString m.1 ++ ":" ++ x))).map
      (fun xs => "\x7b" ++ joinComma xs ++ "\x7d")

end Writer

/-- The text of the POST body of `GenerateCustomName`: a Go map is marshalled
with its keys sorted. -/
def writePostBody (b : PostBody) : Option String :=
  Writer.writeJSON 64 (.obj [("namingPolicy", .str b.namingPolicy),
    ("templateProperties", .obj b.templateProperties), ("workspace", .str b.workspace)])

/-- The text of a marshalled `MicrosoftAdPolicy`: the fields in declaration
order under their tags. -/
def writePolicy (p : MicrosoftAdPolicy) : Option String :=
  Writer.writeJSON 64 (.obj [
    ("_links", .obj [
      ("workspace", .obj [("name", .str p.Links.Workspace.Name), ("id", .str p.Links.Workspace.ID)]),
      ("MicrosoftEndpoint", .obj [("Name", .str p.Links.MicrosoftEndpoint.Name),
        ("URL", .str p.Links.MicrosoftEndpoint.URL)])]),
    ("name", .str p.Name), ("id", .num (some p.ID)), ("description", .str p.Description),
    ("microsoftEndpoint", .str p.MicrosoftEndpoint),
    ("computerNameLetterCase", .str p.ComputerNameLetterCase), ("ou", .str p.OU)])

/-! ## Concrete environments -/

/-- The error of `http.NewRequest` for a URL that starts with a colon, as a URL
built from an empty scheme does: `url.Parse` reports a missing protocol scheme.
Every other URL is accepted here. -/
def missingScheme (url : String) : Option GoError :=
  match url.data with
  | ':' :: _ =>
    some (.external ("parse " ++ Writer.writeString url ++ ": missing protocol scheme"))
  | _ => none

/-- An environment whose library rejects the URLs without a scheme, reads and
writes JSON with `readJSON` and `writeJSON`, and whose network answers as
`answer` says. -/
def Env.withNetwork (answer : HttpClient → Request → DoResult) : Env :=
  { NewRequest := fun _ url => missingScheme url,
    Do := answer,
    parseJSON := readJSON,
    marshalPostBody := writePostBody,
    marshalPolicy := writePolicy }

/-- A response with the given status and body, whose body is read and closed
without error. -/
def Response.plain (status : Int) (body : String) : Response :=
  { StatusCode := status, Body := body, readErr := none, closeErr := none }

/-- A network that answers every request with the same response. -/
def Env.answering (res : Response) : Env := Env.withNetwork (fun _ _ => .ok res)

/-- A network on which every exchange fails with the same transport error. -/
def Env.failing (err : GoError) : Env := Env.withNetwork (fun _ _ => .fail err)

/-- A network that answers a GET with one response and any other request with
another. -/
def Env.answeringGet (getRes otherRes : Response) : Env :=
  Env.withNetwork (fun _ req => if req.Method = "GET" then .ok getRes else .ok otherRes)

/-- A workspace listing with no entry. -/
def emptyWorkspacesBody : String := "\x7b\"_embedded\":\x7b\"workspaces\":[]\x7d\x7d"

/-- A workspace listing with two entries named Default, ids 7 and 9. -/
def twoWorkspacesBody : String :=
  "\x7b\"_embedded\":\x7b\"workspaces\":[\x7b\"name\":\"Default\",\"id\":\"7\"\x7d,\x7b\"name\":\"Default\",\"id\":\"9\"\x7d]\x7d\x7d"

/-- A created custom name. -/
def customNameBody : String := "\x7b\"id\":5,\"name\":\"vm01\",\"dnsSuffix\":\"example.com\"\x7d"

/-- The created policy of the end-to-end scenario. -/
def policyBody : String :=
  "\x7b\"id\":42,\"name\":\"pol1\",\"ou\":\"OU=Test,DC=example,DC=com\"\x7d"

/-- The policy sent in the end-to-end scenario. -/
def scenarioPolicy : MicrosoftAdPolicy :=
  { MicrosoftAdPolicy.zero with Name := "pol1", OU := "OU=Test,DC=example,DC=com" }

def sampleConfig : Config :=
  { scheme := "https", address := "onefuse.example.com", port := "443",
    user := "admin", password := "secret", verifySSL := true }

/-- A configuration whose scheme was left empty. -/
def noSchemeConfig : Config := { sampleConfig with scheme := "" }

/-! ## Vocabulary of the statements -/

/-- The text read from the body by a caller that has called `checkForErrors`
before and ignored its result. -/
def bodyAfterCheck (res : Response) : String := (ReadAll (checkForErrors res).2).1

/-- The workspaces that `findDefaultWorkspaceID` decodes from a body text. -/
def decodedWorkspaces (env : Env) (body : String) : List Workspace :=
  (Unmarshal WorkspacesListResponse.decode (env.parseJSON body)
    WorkspacesListResponse.zero).1.Embedded.Workspaces.elems

/-- The URL of the workspace collection filtered by `name.exact:Default`. -/
def defaultWorkspaceURL (config : Config) : String :=
  collectionURL config WorkspaceResourceType ++ "?filter=name.exact:Default"

/-- A request with the given method, URL and body, with the headers of
`setHeaders`, sent with the client of `getHttpClient`. -/
def exchange (config : Config) (method url : String) (body : Option String) : Sent :=
  ⟨getHttpClient config, setHeaders (newRequest method url body) config⟩

/-- The POST body of `GenerateCustomName` for a naming policy and a workspace. -/
def customNamePostBody (namingPolicyID workspaceID : String)
    (templateProperties : Option (List (String × JSON))) : PostBody :=
  { namingPolicy := "/api/v3/onefuse/namingPolicies/" ++ namingPolicyID ++ "/",
    templateProperties := templateProperties.getD [],
    workspace := "/api/v3/onefuse/workspaces/" ++ workspaceID ++ "/" }

/-- The requests of the resolver: its GET, when `http.NewRequest` accepts the
URL; otherwise none. -/
def resolverRequests (env : Env) (config : Config) : List Sent :=
  match env.NewRequest "GET" (defaultWorkspaceURL config) with
  | none => [exchange config "GET" (defaultWorkspaceURL config) none]
  | some _ => []

/-- The requests of the create step for a workspace id: the POST to the
customNames collection whose body is the marshalled `customNamePostBody`, when
the body marshals and `http.NewRequest` accepts the URL; otherwise none. -/
def createRequests (env : Env) (config : Config) (namingPolicyID workspaceID : String)
    (templateProperties : Option (List (String × JSON))) : List Sent :=
  match env.marshalPostBody (customNamePostBody namingPolicyID workspaceID templateProperties) with
  | none => []
  | some requestBody =>
    match env.NewRequest "POST" (collectionURL config NamingResourceType) with
    | none => [exchange config "POST" (collectionURL config NamingResourceType) (some requestBody)]
    | some _ => []

/-- The values of the members of an object whose key names the field `name`
(up to case folding), in order. -/
def membersNamed (members : List (String × JSON)) (name : String) : List JSON :=
  (members.filter (fun m => foldKey m.1 == name)).map (fun m => m.2)

/-! ## URL construction: theorems -/

theorem apiRoot_append (x : String) :
    ApiVersion ++ (ApiNamespace ++ ("/" ++ x)) = "/api/v3/onefuse/" ++ x := by
  rw [← String.append_assoc, ← String.append_assoc]
  rfl

theorem digitChar_value : ∀ k, k < 10 → (Nat.digitChar k).toNat - 48 = k := by decide

theorem toDigitsCore_append (fuel : Nat) : ∀ (n : Nat) (ds : List Char),
    Nat.toDigitsCore 10 fuel n ds = Nat.toDigitsCore 10 fuel n [] ++ ds := by
  induction fuel with
  | zero => intro n ds; simp [Nat.toDigitsCore]
  | succ fuel ih =>
    intro n ds
    simp only [Nat.toDigitsCore]
    split
    · simp
    · rw [ih (n / 10) (Nat.digitChar (n % 10) :: ds), ih (n / 10) [Nat.digitChar (n % 10)]]
      simp

theorem digitsValue_append (xs : List Char) (d : Char) :
    Reader.digitsValue (xs ++ [d]) = 10 * Reader.digitsValue xs + (d.toNat - 48) := by
  simp [Reader.digitsValue, List.foldl_append]

theorem digitsValue_toDigitsCore (fuel : Nat) : ∀ n, n < fuel →
    Reader.digitsValue (Nat.toDigitsCore 10 fuel n []) = n := by
  induction fuel with
  | zero => intro n h; omega
  | succ fuel ih =>
    intro n h
    simp only [Nat.toDigitsCore]
    split
    · rename_i h0
      have hlt : n % 10 < 10 := Nat.mod_lt _ (by decide)
      simp only [Reader.digitsValue, List.foldl_cons, List.foldl_nil]
      rw [digitChar_value _ hlt]
      omega
    · rename_i h0
      have hlt : n % 10 < 10 := Nat.mod_lt _ (by decide)
      rw [toDigitsCore_append, digitsValue_append, ih (n / 10) (by omega), digitChar_value _ hlt]
      omega

/-- The text of `Itoa` is an optional minus sign followed by decimal digits
whose value is the magnitude of the integer. -/
theorem Itoa_decimal (i : Int) :
    Itoa i = (if i < 0 then "-" else "") ++ Nat.repr i.natAbs
      ∧ Reader.digitsValue (Nat.repr i.natAbs).data = i.natAbs := by
  constructor
  · unfold Itoa
    split <;> rfl
  · exact digitsValue_toDigitsCore _ _ (Nat.lt_succ_self _)

/-- C5: `itemURL` is exactly scheme, `://`, address, `:`, port, the API root
`/api/v3/onefuse/`, the resource type, `/`, the decimal text of the id and a
trailing `/`; equivalently the collection URL followed by the id and `/`. -/
theorem itemURL_exact (config : Config) (resourceType : String) (id : Int) :
    itemURL config resourceType id
        = config.scheme ++ "://" ++ config.address ++ ":" ++ config.port ++ "/api/v3/onefuse/" ++
            resourceType ++ "/" ++ Itoa id ++ "/"
      ∧ itemURL config resourceType id = collectionURL config resourceType ++ Itoa id ++ "/" := by
  constructor
  · simp only [itemURL, String.append_assoc, apiRoot_append]
  · simp only [itemURL, collectionURL, String.append_assoc]

/-! ## Stubbed operations -/

/-- C6: every stubbed operation returns the fixed error `Not implemented yet`
(with the zero record where a record is returned) and sends no request, for
every environment, configuration and argument. -/
theorem stubs_not_implemented (env : Env) (config : Config) (id : Int)
    (endpoint : MicrosoftEndpoint) (policy : MicrosoftAdPolicy) :
    CreateMicrosoftEndpoint env config endpoint
        = ⟨[], .returned (MicrosoftEndpoint.zero, some (.errorsNew "Not implemented yet"))⟩
      ∧ GetMicrosoftEndpoint env config id
        = ⟨[], .returned (MicrosoftEndpoint.zero, some (.errorsNew "Not implemented yet"))⟩
      ∧ UpdateMicrosoftEndpoint env config id endpoint
        = ⟨[], .returned (MicrosoftEndpoint.zero, some (.errorsNew "Not implemented yet"))⟩
      ∧ DeleteMicrosoftEndpoint env config id
        = ⟨[], .returned (some (.errorsNew "Not implemented yet"))⟩
      ∧ UpdateMicrosoftAdPolicy env config id policy
        = ⟨[], .returned (MicrosoftAdPolicy.zero, some (.errorsNew "Not implemented yet"))⟩ :=
  ⟨rfl, rfl, rfl, rfl, rfl⟩

/-! ## Error classification -/

theorem checkForErrors_serverError (res : Response) (h : res.StatusCode ≥ 500) :
    checkForErrors res = (some (.errorsNew res.Body), { res with Body := "" }) := by
  simp [checkForErrors, ReadAll, h]

theorem checkForErrors_pass (res : Response) (h : res.StatusCode < 500) :
    checkForErrors res = (none, res) := by
  have : ¬ res.StatusCode ≥ 500 := by omega
  simp [checkForErrors, this]

theorem checkForErrors_none_iff (res : Response) :
    (checkForErrors res).1 = none ↔ res.StatusCode < 500 := by
  by_cases h : res.StatusCode ≥ 500
  · rw [checkForErrors_serverError res h]
    simp
    omega
  · have h2 : res.StatusCode < 500 := by omega
    rw [checkForErrors_pass res h2]
    simp [h2]

theorem bodyAfterCheck_pass (res : Response) (h : res.StatusCode < 500) :
    bodyAfterCheck res = res.Body := by
  simp [bodyAfterCheck, checkForErrors_pass res h, ReadAll]

theorem bodyAfterCheck_serverError (res : Response) (h : res.StatusCode ≥ 500) :
    bodyAfterCheck res = "" := by
  simp [bodyAfterCheck, checkForErrors_serverError res h, ReadAll]

/-- The operations that classify: with a status of 500 or more,
`DeleteCustomName`, `DeleteMicrosoftAdPolicy` and `CreateMicrosoftAdPolicy`
return the error whose message is the body text. -/
theorem serverError_reported (env : Env) (config : Config) (id : Int)
    (newPolicy : MicrosoftAdPolicy) (requestBody : String) (res : Response)
    (hstatus : res.StatusCode ≥ 500)
    (hnew : ∀ method url, env.NewRequest method url = none)
    (hdo : ∀ client req, env.Do client req = .ok res)
    (hmarshal : env.marshalPolicy newPolicy = some requestBody) :
    (DeleteCustomName env config id).outcome = .returned (some (.errorsNew res.Body))
      ∧ (DeleteMicrosoftAdPolicy env config id).outcome = .returned (some (.errorsNew res.Body))
      ∧ (CreateMicrosoftAdPolicy env config newPolicy).outcome
          = .returned (MicrosoftAdPolicy.zero, some (.errorsNew res.Body)) := by
  simp [DeleteCustomName, DeleteMicrosoftAdPolicy, CreateMicrosoftAdPolicy, hnew, hdo, hmarshal,
    checkForErrors_serverError res hstatus]

/-- C1 (failing inputs): a 500 response with body `boom`.  `GenerateCustomName`
drops the error of `checkForErrors`, which has consumed the body, and reports
an invalid response with an empty text; the three read operations never
classify the status and return a zero record with a nil error. -/
theorem serverError_lost :
    (GenerateCustomName (Env.answering (Response.plain 500 "boom")) sampleConfig
        "example.com" "1" "2" none).outcome
        = .returned (none, some (.errorsNew
            "invalid response 500 while generating a custom name: "))
      ∧ (GetCustomName (Env.answering (Response.plain 500 "boom")) sampleConfig 1).outcome
        = .returned (CustomName.zero, none)
      ∧ (GetMicrosoftAdPolicy (Env.answering (Response.plain 500 "boom")) sampleConfig 1).outcome
        = .returned (MicrosoftAdPolicy.zero, none)
      ∧ (GetMicrosoftEndpointByName (Env.answering (Response.plain 500 "boom")) sampleConfig
          "dc01").outcome
        = .returned (MicrosoftEndpoint.zero, none) := by
  refine ⟨?_, ?_, ?_, ?_⟩ <;> rfl

/-! ## Transport errors -/

/-- The operations that check the error of `client.Do`: when the exchange
fails with `e` they return `e` and nothing else is sent. -/
theorem transportError_returned (env : Env) (config : Config) (id : Int)
    (newPolicy : MicrosoftAdPolicy) (namingPolicyID workspaceID : String)
    (templateProperties : List (String × JSON)) (requestBody postBody : String) (e : GoError)
    (hnew : ∀ method url, env.NewRequest method url = none)
    (hdo : ∀ client req, env.Do client req = .fail e)
    (hmarshal : env.marshalPolicy newPolicy = some requestBody)
    (hpost : ∀ b, env.marshalPostBody b = some postBody) :
    (DeleteCustomName env config id).outcome = .returned (some e)
      ∧ (DeleteMicrosoftAdPolicy env config id).outcome = .returned (some e)
      ∧ (CreateMicrosoftAdPolicy env config newPolicy).outcome
          = .returned (MicrosoftAdPolicy.zero, some e)
      ∧ (findDefaultWorkspaceID env config).outcome = .returned ("", some e)
      ∧ (postCustomName env config namingPolicyID workspaceID templateProperties).outcome
          = .returned (none, some e) := by
  simp [DeleteCustomName, DeleteMicrosoftAdPolicy, CreateMicrosoftAdPolicy,
    findDefaultWorkspaceID, postCustomName, hnew, hdo, hmarshal, hpost]

/-- C4 (failing inputs): the connection is refused.  Each read operation
discards the error of `client.Do` and dereferences the nil response: it panics
instead of returning the transport error. -/
theorem transportError_panics_reads :
    GetCustomName (Env.failing (.external "connection refused")) sampleConfig 1
        = ⟨[exchange sampleConfig "GET" (itemURL sampleConfig NamingResourceType 1) none],
            .panicked nilDereference⟩
      ∧ GetMicrosoftAdPolicy (Env.failing (.external "connection refused")) sampleConfig 1
        = ⟨[exchange sampleConfig "GET" (itemURL sampleConfig MicrosoftAdPolicyResourceType 1) none],
            .panicked nilDereference⟩
      ∧ GetMicrosoftEndpointByName (Env.failing (.external "connection refused")) sampleConfig
          "dc01"
        = ⟨[exchange sampleConfig "GET"
              (collectionURL sampleConfig ModuleEndpointResourceType ++
                "?filter=name:dc01;type:microsoft") none],
            .panicked nilDereference⟩ := by
  refine ⟨?_, ?_, ?_⟩ <;> rfl


/-! ## Delete operations -/

/-- The delete operations when `http.NewRequest` accepts the item URL: each sends
one DELETE request without a body to the item URL of its resource type; when
the exchange succeeds the result is the classification of the response alone,
with no error exactly when the status is below 500, and nothing is decoded (the
result does not depend on the JSON library). -/
theorem delete_contract (env : Env) (config : Config) (id : Int)
    (hname : env.NewRequest "DELETE" (itemURL config NamingResourceType id) = none)
    (hpolicy : env.NewRequest "DELETE" (itemURL config MicrosoftAdPolicyResourceType id) = none) :
    ((DeleteCustomName env config id).sent
          = [exchange config "DELETE" (itemURL config NamingResourceType id) none]
        ∧ (DeleteMicrosoftAdPolicy env config id).sent
          = [exchange config "DELETE" (itemURL config MicrosoftAdPolicyResourceType id) none])
      ∧ (∀ res, env.Do (getHttpClient config)
            (setHeaders (newRequest "DELETE" (itemURL config NamingResourceType id) none) config)
            = .ok res →
          (DeleteCustomName env config id).outcome
              = .returned (if res.StatusCode < 500 then none else some (.errorsNew res.Body))
            ∧ ((DeleteCustomName env config id).outcome = .returned none ↔ res.StatusCode < 500))
      ∧ (∀ res, env.Do (getHttpClient config)
            (setHeaders (newRequest "DELETE" (itemURL config MicrosoftAdPolicyResourceType id) none)
              config) = .ok res →
          (DeleteMicrosoftAdPolicy env config id).outcome
              = .returned (if res.StatusCode < 500 then none else some (.errorsNew res.Body))
            ∧ ((DeleteMicrosoftAdPolicy env config id).outcome = .returned none
                ↔ res.StatusCode < 500))
      ∧ (∀ p mb mp,
          DeleteCustomName { env with parseJSON := p, marshalPostBody := mb, marshalPolicy := mp }
              config id = DeleteCustomName env config id
            ∧ DeleteMicrosoftAdPolicy
                { env with parseJSON := p, marshalPostBody := mb, marshalPolicy := mp }
              config id = DeleteMicrosoftAdPolicy env config id) := by
  refine ⟨⟨?_, ?_⟩, ?_, ?_, ?_⟩
  · simp only [DeleteCustomName, hname, exchange]
    cases env.Do (getHttpClient config)
      (setHeaders (newRequest "DELETE" (itemURL config NamingResourceType id) none) config) <;> rfl
  · simp only [DeleteMicrosoftAdPolicy, hpolicy, exchange]
    cases env.Do (getHttpClient config)
      (setHeaders (newRequest "DELETE" (itemURL config MicrosoftAdPolicyResourceType id) none)
        config) <;> rfl
  · intro res hdo
    have hout : (DeleteCustomName env config id).outcome = .returned (checkForErrors res).1 := by
      simp only [DeleteCustomName, hname, hdo]
    by_cases h : res.StatusCode < 500
    · simp [hout, checkForErrors_pass res h, h]
    · have h2 : res.StatusCode ≥ 500 := by omega
      simp [hout, checkForErrors_serverError res h2, h]
  · intro res hdo
    have hout : (DeleteMicrosoftAdPolicy env config id).outcome
        = .returned (checkForErrors res).1 := by
      simp only [DeleteMicrosoftAdPolicy, hpolicy, hdo]
    by_cases h : res.StatusCode < 500
    · simp [hout, checkForErrors_pass res h, h]
    · have h2 : res.StatusCode ≥ 500 := by omega
      simp [hout, checkForErrors_serverError res h2, h]
  · intro p mb mp
    exact ⟨rfl, rfl⟩

/-- The delete operations at a 204 and a 200 answer: they send their DELETE and
return no error. -/
theorem delete_contract_witness :
    (Env.answering (Response.plain 204 "")).NewRequest "DELETE"
        (itemURL sampleConfig NamingResourceType 5) = none
      ∧ (DeleteCustomName (Env.answering (Response.plain 204 "")) sampleConfig 5).outcome
          = .returned none
      ∧ (DeleteMicrosoftAdPolicy (Env.answering (Response.plain 200 "\x7b\x7d")) sampleConfig
          5).outcome = .returned none :=
  ⟨rfl,
   ((delete_contract (Env.answering (Response.plain 204 "")) sampleConfig 5 rfl rfl).2.1
      (Response.plain 204 "") rfl).2.2 (by decide),
   ((delete_contract (Env.answering (Response.plain 200 "\x7b\x7d")) sampleConfig 5 rfl
      rfl).2.2.1 (Response.plain 200 "\x7b\x7d") rfl).2.2 (by decide)⟩

/-- C9 (failing input): a configuration with an empty scheme and id 5.
`http.NewRequest` rejects the item URL; both delete operations discard that
error and hand the nil request to `setHeaders`: they panic and no DELETE is
sent, although the network would answer 204.  The read operation on the same
URL returns the error. -/
theorem delete_panics_without_request :
    (Env.answering (Response.plain 204 "")).NewRequest "DELETE"
        (itemURL noSchemeConfig NamingResourceType 5)
        = some (.external
            "parse \"://onefuse.example.com:443/api/v3/onefuse/customNames/5/\": missing protocol scheme")
      ∧ DeleteCustomName (Env.answering (Response.plain 204 "")) noSchemeConfig 5
        = ⟨[], .panicked nilDereference⟩
      ∧ DeleteMicrosoftAdPolicy (Env.answering (Response.plain 204 "")) noSchemeConfig 5
        = ⟨[], .panicked nilDereference⟩
      ∧ GetCustomName (Env.answering (Response.plain 204 "")) noSchemeConfig 5
        = ⟨[], .returned (CustomName.zero, some (.external
            "parse \"://onefuse.example.com:443/api/v3/onefuse/customNames/5/\": missing protocol scheme"))⟩ :=
  ⟨rfl, rfl, rfl, rfl⟩

/-! ## Decoding objects -/

/-- A field of the decoded struct is the fold of its decoder over the members
that name it, in order. -/
theorem decodeMembers_field {T F : Type} (setField : T → String → JSON → T × Option GoError)
    (proj : T → F) (name : String) (dec : F → JSON → F)
    (hother : ∀ t key v, key ≠ name → proj (setField t key v).1 = proj t)
    (hsame : ∀ t v, proj (setField t name v).1 = dec (proj t) v)
    (members : List (String × JSON)) (t : T) :
    proj (decodeMembers setField members t).1 = (membersNamed members name).foldl dec (proj t) := by
  induction members generalizing t with
  | nil => rfl
  | cons m rest ih =>
    obtain ⟨k, v⟩ := m
    by_cases hk : foldKey k = name
    · have hstep : membersNamed ((k, v) :: rest) name = v :: membersNamed rest name := by
        simp [membersNamed, hk]
      rw [hstep]
      simp only [decodeMembers, List.foldl_cons]
      rw [ih, hk, hsame]
    · have hstep : membersNamed ((k, v) :: rest) name = membersNamed rest name := by
        simp [membersNamed, hk]
      rw [hstep]
      simp only [decodeMembers]
      rw [ih, hother t (foldKey k) v hk]

/-- No error is saved when every member is accepted by the field it names. -/
theorem decodeMembers_noError {T : Type} (setField : T → String → JSON → T × Option GoError)
    (members : List (String × JSON))
    (h : ∀ m ∈ members, ∀ t, (setField t (foldKey m.1) m.2).2 = none) (t : T) :
    (decodeMembers setField members t).2 = none := by
  induction members generalizing t with
  | nil => rfl
  | cons m rest ih =>
    obtain ⟨k, v⟩ := m
    simp only [decodeMembers]
    rw [h (k, v) (List.mem_cons_self _ _) t, ih (fun m hm => h m (List.mem_cons_of_mem _ hm))]
    rfl

/-! ## Default-workspace resolution -/

theorem defaultWorkspaceURL_eq (config : Config) :
    collectionURL config WorkspaceResourceType ++ "?" ++ "filter=name.exact:Default"
      = defaultWorkspaceURL config := by
  rw [defaultWorkspaceURL, String.append_assoc]
  rfl

theorem checkForErrors_readErr (res : Response) :
    (checkForErrors res).2.readErr = res.readErr := by
  unfold checkForErrors ReadAll
  split <;> rfl

/-- What the resolver does once its GET is answered by a readable response:
it panics on an empty list and returns the id of the first entry otherwise. -/
theorem findDefaultWorkspaceID_answered (env : Env) (config : Config) (res : Response)
    (hnew : env.NewRequest "GET" (defaultWorkspaceURL config) = none)
    (hdo : env.Do (getHttpClient config)
      (setHeaders (newRequest "GET" (defaultWorkspaceURL config) none) config) = .ok res)
    (hread : res.readErr = none) :
    findDefaultWorkspaceID env config
      = ⟨[exchange config "GET" (defaultWorkspaceURL config) none],
          match decodedWorkspaces env (bodyAfterCheck res) with
          | [] => .panicked "Unable to find default workspace."
          | w :: _ => .returned (w.ID, none)⟩ := by
  have hread2 : (ReadAll (checkForErrors res).2).2.1 = none := by
    simp [ReadAll, checkForErrors_readErr, hread]
  simp only [findDefaultWorkspaceID, defaultWorkspaceURL_eq, hnew, hdo]
  generalize hr : ReadAll (checkForErrors res).2 = r at hread2
  obtain ⟨body, err, rest⟩ := r
  simp only at hread2
  subst hread2
  have hbody : bodyAfterCheck res = body := by simp [bodyAfterCheck, hr]
  simp only [decodedWorkspaces, hbody, exchange]
  split <;> rfl

theorem findDefaultWorkspaceID_sent (env : Env) (config : Config)
    (hnew : env.NewRequest "GET" (defaultWorkspaceURL config) = none) :
    (findDefaultWorkspaceID env config).sent
      = [exchange config "GET" (defaultWorkspaceURL config) none] := by
  simp only [findDefaultWorkspaceID, defaultWorkspaceURL_eq, hnew, exchange]
  split
  · rfl
  · rfl
  · split
    · rfl
    · split <;> rfl

theorem postBody_eq (namingPolicyID workspaceID : String)
    (templateProperties : Option (List (String × JSON))) :
    ({ namingPolicy := ApiVersion ++ ApiNamespace ++ "/namingPolicies/" ++ namingPolicyID ++ "/",
       templateProperties := templateProperties.getD [],
       workspace := ApiVersion ++ ApiNamespace ++ "/workspaces/" ++ workspaceID ++ "/" } : PostBody)
      = customNamePostBody namingPolicyID workspaceID templateProperties := rfl

/-- The requests of the POST part are the requests of the create step. -/
theorem postCustomName_sent (env : Env) (config : Config) (namingPolicyID workspaceID : String)
    (templateProperties : Option (List (String × JSON))) :
    (postCustomName env config namingPolicyID workspaceID (templateProperties.getD [])).sent
      = createRequests env config namingPolicyID workspaceID templateProperties := by
  simp only [postCustomName, postBody_eq, createRequests, exchange]
  cases env.marshalPostBody (customNamePostBody namingPolicyID workspaceID templateProperties) with
  | none => rfl
  | some requestBody =>
    cases env.NewRequest "POST" (collectionURL config NamingResourceType) with
    | some e => rfl
    | none =>
      simp only
      repeat' split
      all_goals rfl

/-- The requests of the resolver, whatever the answer. -/
theorem findDefaultWorkspaceID_requests (env : Env) (config : Config) :
    (findDefaultWorkspaceID env config).sent = resolverRequests env config := by
  simp only [findDefaultWorkspaceID, defaultWorkspaceURL_eq, resolverRequests, exchange]
  cases env.NewRequest "GET" (defaultWorkspaceURL config) with
  | some e => rfl
  | none =>
    simp only
    repeat' split
    all_goals rfl

/-- When the POST is marshalled and accepted, exactly that POST is sent. -/
theorem postCustomName_sent_eq (env : Env) (config : Config)
    (namingPolicyID workspaceID : String) (templateProperties : Option (List (String × JSON)))
    (requestBody : String)
    (hmarshal : env.marshalPostBody
      (customNamePostBody namingPolicyID workspaceID templateProperties) = some requestBody)
    (hnew : env.NewRequest "POST" (collectionURL config NamingResourceType) = none) :
    (postCustomName env config namingPolicyID workspaceID (templateProperties.getD [])).sent
      = [exchange config "POST" (collectionURL config NamingResourceType) (some requestBody)] := by
  simp only [postCustomName, postBody_eq, hmarshal, hnew, exchange]
  repeat' split
  all_goals rfl

/-- With an empty workspace id the run of `GenerateCustomName` is the run of the
resolver, followed by the POST part when the resolver returned an id. -/
theorem GenerateCustomName_empty_workspace (env : Env) (config : Config)
    (dnsSuffix namingPolicyID : String) (templateProperties : Option (List (String × JSON))) :
    GenerateCustomName env config dnsSuffix namingPolicyID "" templateProperties
      = match (findDefaultWorkspaceID env config).outcome with
        | .panicked msg => ⟨(findDefaultWorkspaceID env config).sent, .panicked msg⟩
        | .returned (_, some err) =>
          ⟨(findDefaultWorkspaceID env config).sent, .returned (none, some err)⟩
        | .returned (workspaceID, none) =>
          ⟨(findDefaultWorkspaceID env config).sent ++
              (postCustomName env config namingPolicyID workspaceID
                (templateProperties.getD [])).sent,
            (postCustomName env config namingPolicyID workspaceID
              (templateProperties.getD [])).outcome⟩ := by
  simp only [GenerateCustomName, if_true]

theorem GenerateCustomName_given_workspace (env : Env) (config : Config)
    (dnsSuffix namingPolicyID workspaceID : String)
    (templateProperties : Option (List (String × JSON))) (hws : workspaceID ≠ "") :
    GenerateCustomName env config dnsSuffix namingPolicyID workspaceID templateProperties
      = postCustomName env config namingPolicyID workspaceID (templateProperties.getD []) := by
  simp only [GenerateCustomName, hws, if_false]

/-- C3: with no workspace id given, when the GET on the workspace collection
filtered by `name.exact:Default` is answered by a readable body that decodes to
zero entries, `GenerateCustomName` aborts (the resolver panics), returns no
`CustomName`, and the GET is the only request sent: no POST is made. -/
theorem GenerateCustomName_no_default_workspace (env : Env) (config : Config)
    (dnsSuffix namingPolicyID : String) (templateProperties : Option (List (String × JSON)))
    (res : Response)
    (hnew : env.NewRequest "GET" (defaultWorkspaceURL config) = none)
    (hdo : env.Do (getHttpClient config)
      (setHeaders (newRequest "GET" (defaultWorkspaceURL config) none) config) = .ok res)
    (hread : res.readErr = none)
    (hempty : decodedWorkspaces env (bodyAfterCheck res) = []) :
    GenerateCustomName env config dnsSuffix namingPolicyID "" templateProperties
      = ⟨[exchange config "GET" (defaultWorkspaceURL config) none],
          .panicked "Unable to find default workspace."⟩ := by
  have h := findDefaultWorkspaceID_answered env config res hnew hdo hread
  rw [hempty] at h
  rw [GenerateCustomName_empty_workspace, h]

/-- C3 at a 200 answer with an empty `workspaces` array: only the GET is sent
and the call panics, although the network would answer a POST with 201. -/
theorem GenerateCustomName_no_default_workspace_witness :
    decodedWorkspaces
        (Env.answeringGet (Response.plain 200 emptyWorkspacesBody)
          (Response.plain 201 customNameBody))
        emptyWorkspacesBody = []
      ∧ GenerateCustomName
          (Env.answeringGet (Response.plain 200 emptyWorkspacesBody)
            (Response.plain 201 customNameBody))
          sampleConfig "example.com" "1" "" none
        = ⟨[exchange sampleConfig "GET" (defaultWorkspaceURL sampleConfig) none],
            .panicked "Unable to find default workspace."⟩ :=
  ⟨rfl, GenerateCustomName_no_default_workspace
    (Env.answeringGet (Response.plain 200 emptyWorkspacesBody)
      (Response.plain 201 customNameBody))
    sampleConfig "example.com" "1" none (Response.plain 200 emptyWorkspacesBody)
    rfl rfl rfl rfl⟩

/-- The workspaces decoded from a listing: an object with one member
`_embedded`, an object with one member `workspaces`, a non-empty array.  The
first workspace is the decoding of the first item of the array. -/
theorem decodedWorkspaces_listing (env : Env) (body : String)
    (members embedded : List (String × JSON)) (first : JSON) (rest : List JSON)
    (hbody : env.parseJSON body = some (.obj members))
    (hembedded : membersNamed members "_embedded" = [.obj embedded])
    (hworkspaces : membersNamed embedded "workspaces" = [.arr (first :: rest)]) :
    decodedWorkspaces env body
      = (Workspace.decode Workspace.zero first).1
          :: (decodeElements Workspace.zero Workspace.decode rest []).1 := by
  have h1 := decodeMembers_field WorkspacesListResponse.setField (fun d => d.Embedded) "_embedded"
    (fun old v => (decodeStruct "struct" WorkspacesEmbedded.setField old v).1)
    (fun t key v hkey => by
      unfold WorkspacesListResponse.setField
      split_ifs with h1 <;> first | rfl | exact absurd h1 hkey)
    (fun t v => rfl) members WorkspacesListResponse.zero
  have h2 := decodeMembers_field WorkspacesEmbedded.setField (fun e => e.Workspaces) "workspaces"
    (fun old v => (decodeSlice "[]Workspace" Workspace.zero Workspace.decode old v).1)
    (fun t key v hkey => by
      unfold WorkspacesEmbedded.setField
      split_ifs with h1 <;> first | rfl | exact absurd h1 hkey)
    (fun t v => rfl) embedded WorkspacesListResponse.zero.Embedded
  rw [hembedded] at h1
  rw [hworkspaces] at h2
  simp only [List.foldl_cons, List.foldl_nil, decodeStruct] at h1
  simp only [List.foldl_cons, List.foldl_nil] at h2
  simp only [decodedWorkspaces, hbody, Unmarshal, WorkspacesListResponse.decode, decodeStruct]
  rw [h1, h2]
  rfl

/-- The id of a workspace decoded from an object with one member `id`, a
string. -/
theorem Workspace.decode_ID (fields : List (String × JSON)) (id : String)
    (hid : membersNamed fields "id" = [.str id]) :
    (Workspace.decode Workspace.zero (.obj fields)).1.ID = id := by
  have h := decodeMembers_field Workspace.setField (fun w => w.ID) "id"
    (fun old v => (decodeString old v).1)
    (fun t key v hkey => by
      unfold Workspace.setField
      split_ifs <;> rfl)
    (fun t v => rfl) fields Workspace.zero
  rw [hid] at h
  exact h

/-- C7: when the GET of the resolver is answered by a readable body that
decodes to a non-empty sequence of workspaces, `findDefaultWorkspaceID` returns
the id of the first entry with no error.  The first entry is the first in
response order: for a listing (one `_embedded` object with one `workspaces`
array) it is the decoding of the first item of the array, and its id is the
`id` member of that item.  The id depends on the response and the JSON library
alone, not on the configuration or the rest of the environment; and the POST
that `GenerateCustomName` then sends carries the body that references the
workspace as `/api/v3/onefuse/workspaces/<first id>/`. -/
theorem findDefaultWorkspaceID_first (env : Env) (config : Config) (res : Response)
    (w : Workspace) (others : List Workspace)
    (hnew : env.NewRequest "GET" (defaultWorkspaceURL config) = none)
    (hdo : env.Do (getHttpClient config)
      (setHeaders (newRequest "GET" (defaultWorkspaceURL config) none) config) = .ok res)
    (hread : res.readErr = none)
    (hdecode : decodedWorkspaces env (bodyAfterCheck res) = w :: others) :
    findDefaultWorkspaceID env config
        = ⟨[exchange config "GET" (defaultWorkspaceURL config) none], .returned (w.ID, none)⟩
      ∧ (∀ (members embedded : List (String × JSON)) (first : JSON) (rest : List JSON),
          env.parseJSON (bodyAfterCheck res) = some (.obj members) →
          membersNamed members "_embedded" = [.obj embedded] →
          membersNamed embedded "workspaces" = [.arr (first :: rest)] →
          w = (Workspace.decode Workspace.zero first).1
            ∧ ∀ (fields : List (String × JSON)) (id : String),
                first = .obj fields → membersNamed fields "id" = [.str id] → w.ID = id)
      ∧ (∀ (env2 : Env) (config2 : Config),
          env2.NewRequest "GET" (defaultWorkspaceURL config2) = none →
          env2.Do (getHttpClient config2)
            (setHeaders (newRequest "GET" (defaultWorkspaceURL config2) none) config2) = .ok res →
          env2.parseJSON = env.parseJSON →
          (findDefaultWorkspaceID env2 config2).outcome = .returned (w.ID, none))
      ∧ (∀ (dnsSuffix namingPolicyID : String)
          (templateProperties : Option (List (String × JSON))) (requestBody : String),
          (customNamePostBody namingPolicyID w.ID templateProperties).workspace
              = "/api/v3/onefuse/workspaces/" ++ w.ID ++ "/"
            ∧ (env.marshalPostBody (customNamePostBody namingPolicyID w.ID templateProperties)
                = some requestBody →
              env.NewRequest "POST" (collectionURL config NamingResourceType) = none →
              (GenerateCustomName env config dnsSuffix namingPolicyID "" templateProperties).sent
                = [exchange config "GET" (defaultWorkspaceURL config) none,
                   exchange config "POST" (collectionURL config NamingResourceType)
                     (some requestBody)])) := by
  have h := findDefaultWorkspaceID_answered env config res hnew hdo hread
  rw [hdecode] at h
  simp only at h
  refine ⟨h, ?_, ?_, ?_⟩
  · intro members embedded first rest hbody hembedded hworkspaces
    have hl := decodedWorkspaces_listing env (bodyAfterCheck res) members embedded first rest
      hbody hembedded hworkspaces
    rw [hdecode] at hl
    have hw : w = (Workspace.decode Workspace.zero first).1 := (List.cons.inj hl).1
    refine ⟨hw, ?_⟩
    intro fields id hfirst hid
    rw [hw, hfirst]
    exact Workspace.decode_ID fields id hid
  · intro env2 config2 hnew2 hdo2 hparse
    have h2 := findDefaultWorkspaceID_answered env2 config2 res hnew2 hdo2 hread
    have hd : decodedWorkspaces env2 (bodyAfterCheck res) = w :: others := by
      rw [← hdecode]
      simp only [decodedWorkspaces, hparse]
    rw [hd] at h2
    rw [h2]
  · intro dnsSuffix namingPolicyID templateProperties requestBody
    refine ⟨rfl, ?_⟩
    intro hmarshal hpost
    rw [GenerateCustomName_empty_workspace, h]
    simp only
    rw [postCustomName_sent_eq env config namingPolicyID w.ID templateProperties requestBody
      hmarshal hpost]
    rfl

/-- C7 at a 200 answer listing two workspaces named Default, ids 7 and 9, in
that order: the listing decodes to those two workspaces, the resolver returns
7, the id of the first item of the array, and the POST that follows references
`/api/v3/onefuse/workspaces/7/`. -/
theorem findDefaultWorkspaceID_first_witness :
    readJSON twoWorkspacesBody
        = some (.obj [("_embedded", .obj [("workspaces", .arr [
            .obj [("name", .str "Default"), ("id", .str "7")],
            .obj [("name", .str "Default"), ("id", .str "9")]])])])
      ∧ decodedWorkspaces
          (Env.answeringGet (Response.plain 200 twoWorkspacesBody)
            (Response.plain 201 customNameBody))
          twoWorkspacesBody = [⟨"Default", "7"⟩, ⟨"Default", "9"⟩]
      ∧ findDefaultWorkspaceID
          (Env.answeringGet (Response.plain 200 twoWorkspacesBody)
            (Response.plain 201 customNameBody))
          sampleConfig
        = ⟨[exchange sampleConfig "GET" (defaultWorkspaceURL sampleConfig) none],
            .returned ("7", none)⟩
      ∧ (GenerateCustomName
          (Env.answeringGet (Response.plain 200 twoWorkspacesBody)
            (Response.plain 201 customNameBody))
          sampleConfig "example.com" "1" "" none).sent
        = [exchange sampleConfig "GET" (defaultWorkspaceURL sampleConfig) none,
           exchange sampleConfig "POST" (collectionURL sampleConfig NamingResourceType)
            (some "\x7b\"namingPolicy\":\"/api/v3/onefuse/namingPolicies/1/\",\"templateProperties\":\x7b\x7d,\"workspace\":\"/api/v3/onefuse/workspaces/7/\"\x7d")] :=
  ⟨rfl, rfl,
   (findDefaultWorkspaceID_first
      (Env.answeringGet (Response.plain 200 twoWorkspacesBody)
        (Response.plain 201 customNameBody))
      sampleConfig (Response.plain 200 twoWorkspacesBody)
      ⟨"Default", "7"⟩ [⟨"Default", "9"⟩] rfl rfl rfl rfl).1,
   ((findDefaultWorkspaceID_first
      (Env.answeringGet (Response.plain 200 twoWorkspacesBody)
        (Response.plain 201 customNameBody))
      sampleConfig (Response.plain 200 twoWorkspacesBody)
      ⟨"Default", "7"⟩ [⟨"Default", "9"⟩] rfl rfl rfl rfl).2.2.2
        "example.com" "1" none _).2 rfl rfl⟩

/-- The listing with a repeated `workspaces` key: the second array is decoded
into the element the first one left, so the first workspace keeps the id 1 and
the resolver returns 1. -/
theorem findDefaultWorkspaceID_repeated_key :
    (findDefaultWorkspaceID
        (Env.answering (Response.plain 200
          "\x7b\"_embedded\":\x7b\"workspaces\":[\x7b\"name\":\"a\",\"id\":\"1\"\x7d],\"workspaces\":[\x7b\"name\":\"b\"\x7d]\x7d\x7d"))
        sampleConfig).outcome
      = .returned ("1", none) := rfl

/-- C8 (counterexample): a configuration with an empty scheme.
`http.NewRequest` rejects every URL built from it.  With no workspace id the
resolver returns that error and the call ends with it: no GET on the
workspaces collection is sent, and no request at all.  With the workspace id 2
the POST is rejected in the same way: no POST is sent. -/
theorem GenerateCustomName_resolver_sends_nothing :
    GenerateCustomName
        (Env.answeringGet (Response.plain 200 twoWorkspacesBody)
          (Response.plain 201 customNameBody))
        noSchemeConfig "example.com" "1" "" none
      = ⟨[], .returned (none, some (.external
          "parse \"://onefuse.example.com:443/api/v3/onefuse/workspaces/?filter=name.exact:Default\": missing protocol scheme"))⟩
      ∧ GenerateCustomName
          (Env.answeringGet (Response.plain 200 twoWorkspacesBody)
            (Response.plain 201 customNameBody))
          noSchemeConfig "example.com" "1" "2" none
        = ⟨[], .returned (none, some (.external
            "parse \"://onefuse.example.com:443/api/v3/onefuse/customNames/\": missing protocol scheme"))⟩ :=
  ⟨rfl, rfl⟩

/-- C8 (amended): with an empty workspace id the resolver runs once: the trace
starts with its requests, which are its one GET on the workspaces collection
when `http.NewRequest` accepts that URL and none otherwise.  When the resolver
returns an id without error the requests of the create step for that id
follow: the POST whose body references the id, when the body marshals and its
URL is accepted.  When the resolver returns an error or panics, nothing
follows and the call ends with that error or panic.  With a non-empty
workspace id the resolver is not run: the trace is the requests of the create
step for the supplied id. -/
theorem GenerateCustomName_resolution (env : Env) (config : Config)
    (dnsSuffix namingPolicyID workspaceID : String)
    (templateProperties : Option (List (String × JSON))) :
    (workspaceID = "" →
        (∀ id, (findDefaultWorkspaceID env config).outcome = .returned (id, none) →
          (GenerateCustomName env config dnsSuffix namingPolicyID workspaceID
              templateProperties).sent
            = resolverRequests env config
                ++ createRequests env config namingPolicyID id templateProperties)
        ∧ (∀ id err, (findDefaultWorkspaceID env config).outcome = .returned (id, some err) →
          GenerateCustomName env config dnsSuffix namingPolicyID workspaceID templateProperties
            = ⟨resolverRequests env config, .returned (none, some err)⟩)
        ∧ (∀ msg, (findDefaultWorkspaceID env config).outcome = .panicked msg →
          GenerateCustomName env config dnsSuffix namingPolicyID workspaceID templateProperties
            = ⟨resolverRequests env config, .panicked msg⟩))
      ∧ (workspaceID ≠ "" →
        (GenerateCustomName env config dnsSuffix namingPolicyID workspaceID
            templateProperties).sent
          = createRequests env config namingPolicyID workspaceID templateProperties) := by
  constructor
  · intro hws
    subst hws
    rw [GenerateCustomName_empty_workspace, findDefaultWorkspaceID_requests]
    refine ⟨?_, ?_, ?_⟩
    · intro id hout
      rw [hout]
      simp only
      rw [postCustomName_sent]
    · intro id err hout
      rw [hout]
    · intro msg hout
      rw [hout]
  · intro hws
    rw [GenerateCustomName_given_workspace env config dnsSuffix namingPolicyID workspaceID
      templateProperties hws, postCustomName_sent]

/-- C8 (amended) at concrete calls: with no workspace id the trace is the GET
of the resolver followed by the POST that references the resolved workspace 7;
with the workspace id 2 the trace is the single POST that references 2. -/
theorem GenerateCustomName_resolution_witness :
    (GenerateCustomName
          (Env.answeringGet (Response.plain 200 twoWorkspacesBody)
            (Response.plain 201 customNameBody))
          sampleConfig "example.com" "1" "" none).sent
        = [exchange sampleConfig "GET" (defaultWorkspaceURL sampleConfig) none,
           exchange sampleConfig "POST" (collectionURL sampleConfig NamingResourceType)
            (some "\x7b\"namingPolicy\":\"/api/v3/onefuse/namingPolicies/1/\",\"templateProperties\":\x7b\x7d,\"workspace\":\"/api/v3/onefuse/workspaces/7/\"\x7d")]
      ∧ (GenerateCustomName
          (Env.answeringGet (Response.plain 200 twoWorkspacesBody)
            (Response.plain 201 customNameBody))
          sampleConfig "example.com" "1" "2" none).sent
        = [exchange sampleConfig "POST" (collectionURL sampleConfig NamingResourceType)
            (some "\x7b\"namingPolicy\":\"/api/v3/onefuse/namingPolicies/1/\",\"templateProperties\":\x7b\x7d,\"workspace\":\"/api/v3/onefuse/workspaces/2/\"\x7d")] :=
  ⟨((GenerateCustomName_resolution
        (Env.answeringGet (Response.plain 200 twoWorkspacesBody)
          (Response.plain 201 customNameBody))
        sampleConfig "example.com" "1" "" none).1 rfl).1 "7" rfl,
   (GenerateCustomName_resolution
        (Env.answeringGet (Response.plain 200 twoWorkspacesBody)
          (Response.plain 201 customNameBody))
        sampleConfig "example.com" "1" "2" none).2 (by decide)⟩

/-- Two calls in full: GET then POST referencing the
resolved workspace 7; and the single POST referencing the supplied workspace
2, answered by the created name. -/
theorem GenerateCustomName_scenarios :
    GenerateCustomName
        (Env.answeringGet (Response.plain 200 twoWorkspacesBody)
          (Response.plain 201 customNameBody))
        sampleConfig "example.com" "1" "" none
      = ⟨[exchange sampleConfig "GET" (defaultWorkspaceURL sampleConfig) none,
          exchange sampleConfig "POST" (collectionURL sampleConfig NamingResourceType)
            (writePostBody (customNamePostBody "1" "7" none))],
          .returned (some ⟨5, 0, "vm01", "example.com"⟩, none)⟩
      ∧ GenerateCustomName
          (Env.answeringGet (Response.plain 200 twoWorkspacesBody)
            (Response.plain 201 customNameBody))
          sampleConfig "example.com" "1" "2" none
        = ⟨[exchange sampleConfig "POST" (collectionURL sampleConfig NamingResourceType)
              (writePostBody (customNamePostBody "1" "2" none))],
            .returned (some ⟨5, 0, "vm01", "example.com"⟩, none)⟩ :=
  ⟨rfl, rfl⟩

/-! ## Decoding the answer of a create -/

/-- The POST part once its request is answered with a status below 500 and a
readable body: the result is decided by the pointer `json.Unmarshal` leaves. -/
theorem postCustomName_answered (env : Env) (config : Config)
    (namingPolicyID workspaceID : String) (templateProperties : Option (List (String × JSON)))
    (requestBody : String) (res : Response)
    (hmarshal : env.marshalPostBody
      (customNamePostBody namingPolicyID workspaceID templateProperties) = some requestBody)
    (hnew : env.NewRequest "POST" (collectionURL config NamingResourceType) = none)
    (hdo : env.Do (getHttpClient config)
      (setHeaders (newRequest "POST" (collectionURL config NamingResourceType) (some requestBody))
        config) = .ok res)
    (hstatus : res.StatusCode < 500)
    (hread : res.readErr = none) :
    (postCustomName env config namingPolicyID workspaceID (templateProperties.getD [])).outcome
      = match (UnmarshalCustomNamePtr (env.parseJSON res.Body) none).1 with
        | none => .returned (none, some (.errorsNew
            ("invalid response " ++ Itoa res.StatusCode ++
              " while generating a custom name: " ++ res.Body)))
        | some r => .returned (some r, none) := by
  simp only [postCustomName, postBody_eq, hmarshal, hnew, hdo, checkForErrors_pass res hstatus,
    ReadAll, hread]
  split <;> rfl

theorem UnmarshalCustomNamePtr_nil_iff (scanned : Option JSON) :
    (UnmarshalCustomNamePtr scanned none).1 = none ↔ scanned = none ∨ scanned = some .null := by
  cases scanned with
  | none => simp [UnmarshalCustomNamePtr]
  | some v => cases v <;> simp [UnmarshalCustomNamePtr]

theorem UnmarshalCustomNamePtr_value (v : JSON) (hv : v ≠ .null) :
    (UnmarshalCustomNamePtr (some v) none).1 = some (CustomName.decode CustomName.zero v).1 := by
  cases v <;> simp [UnmarshalCustomNamePtr] at hv ⊢

/-- C2 (counterexample): a 200 answer whose body is `{}`.  The body decodes to
the empty record, and `GenerateCustomName` returns that record with a nil
error: it does not fail. -/
theorem GenerateCustomName_returns_empty_record :
    UnmarshalCustomNamePtr (readJSON "\x7b\x7d") none = (some ⟨0, 0, "", ""⟩, none)
      ∧ (GenerateCustomName (Env.answering (Response.plain 200 "\x7b\x7d")) sampleConfig
          "example.com" "1" "2" none).outcome
        = .returned (some ⟨0, 0, "", ""⟩, none) :=
  ⟨rfl, rfl⟩

/-- C2 (amended): when the POST of `GenerateCustomName` is answered with a 2xx
status and a readable body, the call fails with the decode-contract error
`invalid response <status> while generating a custom name: <body>` when no
record is decoded, that is when the body is not valid JSON or is `null`; when
the body is a JSON object that decodes without error to an empty record (Id 0
and Name empty, as for `{}`), the call does not fail: it returns that record
with a nil error. -/
theorem GenerateCustomName_decode_contract (env : Env) (config : Config)
    (dnsSuffix namingPolicyID workspaceID resolvedID : String)
    (templateProperties : Option (List (String × JSON))) (requestBody : String) (res : Response)
    (hresolved : (workspaceID ≠ "" ∧ resolvedID = workspaceID)
      ∨ (workspaceID = "" ∧ (findDefaultWorkspaceID env config).outcome
          = .returned (resolvedID, none)))
    (hmarshal : env.marshalPostBody
      (customNamePostBody namingPolicyID resolvedID templateProperties) = some requestBody)
    (hnew : env.NewRequest "POST" (collectionURL config NamingResourceType) = none)
    (hdo : env.Do (getHttpClient config)
      (setHeaders (newRequest "POST" (collectionURL config NamingResourceType) (some requestBody))
        config) = .ok res)
    (hstatus : 200 ≤ res.StatusCode ∧ res.StatusCode < 300)
    (hread : res.readErr = none) :
    ((env.parseJSON res.Body = none ∨ env.parseJSON res.Body = some .null) →
        (GenerateCustomName env config dnsSuffix namingPolicyID workspaceID
            templateProperties).outcome
          = .returned (none, some (.errorsNew
              ("invalid response " ++ Itoa res.StatusCode ++
                " while generating a custom name: " ++ res.Body))))
      ∧ (∀ (members : List (String × JSON)) (r : CustomName),
        env.parseJSON res.Body = some (.obj members) →
        CustomName.decode CustomName.zero (.obj members) = (r, none) →
        r.Id = 0 → r.Name = "" →
        (GenerateCustomName env config dnsSuffix namingPolicyID workspaceID
            templateProperties).outcome
          = .returned (some r, none)) := by
  have hout : (GenerateCustomName env config dnsSuffix namingPolicyID workspaceID
      templateProperties).outcome
      = (postCustomName env config namingPolicyID resolvedID
          (templateProperties.getD [])).outcome := by
    rcases hresolved with ⟨hws, hid⟩ | ⟨hws, hres⟩
    · rw [GenerateCustomName_given_workspace env config dnsSuffix namingPolicyID workspaceID
        templateProperties hws, hid]
    · subst hws
      rw [GenerateCustomName_empty_workspace, hres]
  have hpost := postCustomName_answered env config namingPolicyID resolvedID templateProperties
    requestBody res hmarshal hnew hdo (by omega) hread
  rw [hout, hpost]
  refine ⟨?_, ?_⟩
  · intro hnil
    rw [(UnmarshalCustomNamePtr_nil_iff (env.parseJSON res.Body)).2 hnil]
  · intro members r hobj hdec _ _
    rw [hobj, UnmarshalCustomNamePtr_value (.obj members) (by simp), hdec]

/-- C2 (amended) at two 200 answers: the body `null` makes the call fail with
the invalid-response error; the body `{}` decodes without error to the empty
record, which is returned with a nil error. -/
theorem GenerateCustomName_decode_contract_witness :
    (readJSON "null" = some .null
        ∧ (GenerateCustomName (Env.answering (Response.plain 200 "null")) sampleConfig
            "example.com" "1" "2" none).outcome
          = .returned (none, some (.errorsNew
              "invalid response 200 while generating a custom name: null")))
      ∧ (CustomName.decode CustomName.zero (.obj []) = (CustomName.zero, none)
        ∧ (GenerateCustomName (Env.answering (Response.plain 200 "\x7b\x7d")) sampleConfig
            "example.com" "1" "2" none).outcome
          = .returned (some CustomName.zero, none)) :=
  ⟨⟨rfl, (GenerateCustomName_decode_contract (Env.answering (Response.plain 200 "null"))
      sampleConfig "example.com" "1" "2" "2" none
      ((writePostBody (customNamePostBody "1" "2" none)).getD "") (Response.plain 200 "null")
      (Or.inl ⟨by decide, rfl⟩) rfl rfl rfl (by decide) rfl).1 (Or.inr rfl)⟩,
   ⟨rfl, (GenerateCustomName_decode_contract (Env.answering (Response.plain 200 "\x7b\x7d"))
      sampleConfig "example.com" "1" "2" "2" none
      ((writePostBody (customNamePostBody "1" "2" none)).getD "") (Response.plain 200 "\x7b\x7d")
      (Or.inl ⟨by decide, rfl⟩) rfl rfl rfl (by decide) rfl).2 [] CustomName.zero rfl rfl rfl
        rfl⟩⟩

/-! ## Creating a policy -/

theorem MicrosoftAdPolicy.setField_ID (p : MicrosoftAdPolicy) (key : String) (v : JSON) :
    (key ≠ "id" → (MicrosoftAdPolicy.setField p key v).1.ID = p.ID)
      ∧ (MicrosoftAdPolicy.setField p "id" v).1.ID = (decodeInt p.ID v).1 := by
  refine ⟨fun hkey => ?_, rfl⟩
  unfold MicrosoftAdPolicy.setField
  split_ifs <;> rfl

theorem MicrosoftAdPolicy.setField_Name (p : MicrosoftAdPolicy) (key : String) (v : JSON) :
    (key ≠ "name" → (MicrosoftAdPolicy.setField p key v).1.Name = p.Name)
      ∧ (MicrosoftAdPolicy.setField p "name" v).1.Name = (decodeString p.Name v).1 := by
  refine ⟨fun hkey => ?_, rfl⟩
  unfold MicrosoftAdPolicy.setField
  split_ifs <;> rfl

theorem MicrosoftAdPolicy.setField_OU (p : MicrosoftAdPolicy) (key : String) (v : JSON) :
    (key ≠ "ou" → (MicrosoftAdPolicy.setField p key v).1.OU = p.OU)
      ∧ (MicrosoftAdPolicy.setField p "ou" v).1.OU = (decodeString p.OU v).1 := by
  refine ⟨fun hkey => ?_, rfl⟩
  unfold MicrosoftAdPolicy.setField
  split_ifs <;> rfl

/-- C10: when the POST of `CreateMicrosoftAdPolicy` to the
microsoftActiveDirectoryPolicies collection is answered with a status below
500 and a readable body that is a JSON object whose members fit the fields they
name, carrying one member `id` (an integer of Go's `int`), one member `name`
and one member `ou` (strings), the call sends that one POST and returns, with
no error, a policy whose ID, Name and OU are those members. -/
theorem CreateMicrosoftAdPolicy_decodes (env : Env) (config : Config)
    (newPolicy : MicrosoftAdPolicy) (requestBody : String) (res : Response)
    (members : List (String × JSON)) (id : Int) (name ou : String)
    (hmarshal : env.marshalPolicy newPolicy = some requestBody)
    (hnew : env.NewRequest "POST" (collectionURL config MicrosoftAdPolicyResourceType) = none)
    (hdo : env.Do (getHttpClient config)
      (setHeaders (newRequest "POST" (collectionURL config MicrosoftAdPolicyResourceType)
        (some requestBody)) config) = .ok res)
    (hstatus : res.StatusCode < 500)
    (hread : res.readErr = none)
    (hclose : res.closeErr = none)
    (hbody : env.parseJSON res.Body = some (.obj members))
    (htyped : ∀ m ∈ members, ∀ p, (MicrosoftAdPolicy.setField p (foldKey m.1) m.2).2 = none)
    (hid : membersNamed members "id" = [.num (some id)])
    (hint : -(2 : Int) ^ 63 ≤ id ∧ id < (2 : Int) ^ 63)
    (hname : membersNamed members "name" = [.str name])
    (hou : membersNamed members "ou" = [.str ou]) :
    (CreateMicrosoftAdPolicy env config newPolicy).sent
        = [exchange config "POST" (collectionURL config MicrosoftAdPolicyResourceType)
            (some requestBody)]
      ∧ ∃ policy, (CreateMicrosoftAdPolicy env config newPolicy).outcome = .returned (policy, none)
          ∧ policy.ID = id ∧ policy.Name = name ∧ policy.OU = ou := by
  have herr : (decodeMembers MicrosoftAdPolicy.setField members MicrosoftAdPolicy.zero).2 = none :=
    decodeMembers_noError MicrosoftAdPolicy.setField members htyped MicrosoftAdPolicy.zero
  have hrun : CreateMicrosoftAdPolicy env config newPolicy
      = ⟨[exchange config "POST" (collectionURL config MicrosoftAdPolicyResourceType)
            (some requestBody)],
          .returned ((decodeMembers MicrosoftAdPolicy.setField members MicrosoftAdPolicy.zero).1,
            none)⟩ := by
    simp only [CreateMicrosoftAdPolicy, hmarshal, hnew, hdo, checkForErrors_pass res hstatus,
      ReadAll, hread, hclose, hbody, Unmarshal, MicrosoftAdPolicy.decode, decodeStruct, exchange]
    generalize decodeMembers MicrosoftAdPolicy.setField members MicrosoftAdPolicy.zero = r at herr
    obtain ⟨policy, err⟩ := r
    simp only at herr
    subst herr
    rfl
  rw [hrun]
  refine ⟨rfl, _, rfl, ?_, ?_, ?_⟩
  · rw [decodeMembers_field MicrosoftAdPolicy.setField (fun p => p.ID) "id"
      (fun old v => (decodeInt old v).1)
      (fun t key v hkey => (MicrosoftAdPolicy.setField_ID t key v).1 hkey)
      (fun t v => (MicrosoftAdPolicy.setField_ID t "id" v).2), hid]
    simp only [List.foldl_cons, List.foldl_nil, decodeInt]
    rw [if_pos hint]
  · rw [decodeMembers_field MicrosoftAdPolicy.setField (fun p => p.Name) "name"
      (fun old v => (decodeString old v).1)
      (fun t key v hkey => (MicrosoftAdPolicy.setField_Name t key v).1 hkey)
      (fun t v => (MicrosoftAdPolicy.setField_Name t "name" v).2), hname]
    rfl
  · rw [decodeMembers_field MicrosoftAdPolicy.setField (fun p => p.OU) "ou"
      (fun old v => (decodeString old v).1)
      (fun t key v hkey => (MicrosoftAdPolicy.setField_OU t key v).1 hkey)
      (fun t v => (MicrosoftAdPolicy.setField_OU t "ou" v).2), hou]
    rfl

/-- C10 at the scenario of the specification: a 201 answer with the body
`{"id":42,"name":"pol1","ou":"OU=Test,DC=example,DC=com"}` yields a policy with
ID 42, Name `pol1` and OU `OU=Test,DC=example,DC=com`, and no error. -/
theorem CreateMicrosoftAdPolicy_decodes_witness :
    readJSON policyBody
        = some (.obj [("id", .num (some 42)), ("name", .str "pol1"),
            ("ou", .str "OU=Test,DC=example,DC=com")])
      ∧ ∃ policy,
          (CreateMicrosoftAdPolicy (Env.answering (Response.plain 201 policyBody)) sampleConfig
              scenarioPolicy).outcome = .returned (policy, none)
            ∧ policy.ID = 42 ∧ policy.Name = "pol1" ∧ policy.OU = "OU=Test,DC=example,DC=com" :=
  ⟨rfl, (CreateMicrosoftAdPolicy_decodes (Env.answering (Response.plain 201 policyBody))
    sampleConfig scenarioPolicy ((writePolicy scenarioPolicy).getD "")
    (Response.plain 201 policyBody)
    [("id", .num (some 42)), ("name", .str "pol1"), ("ou", .str "OU=Test,DC=example,DC=com")]
    42 "pol1" "OU=Test,DC=example,DC=com" rfl rfl rfl (by decide) rfl rfl rfl
    (by
      intro m hm p
      simp only [List.mem_cons, List.mem_singleton, List.not_mem_nil, or_false] at hm
      rcases hm with rfl | rfl | rfl <;> rfl)
    rfl (by decide) rfl rfl).2⟩

end OneFuse
